import Mathlib

/-!
Verification development for the CityBlocks repository.

The geometry, fetching, geocoding, UI-state and storage logic of the
application is shallowly embedded below.  JavaScript numbers are modelled
as real numbers (`ℝ`) where the code computes with square roots and
trigonometry, and as rationals (`ℚ`) where the code only parses and
passes decimal literals around.  Asynchronous HTTP calls are modelled as
oracle functions passed explicitly to the embedded procedures; a thrown
JavaScript error is modelled with `Except.error`.
-/

namespace CityBlocks

/-! ## Geo helpers (src/unnamed/part_001, lines 83-94) -/

noncomputable def DEG2RAD : ℝ := Real.pi / 180

noncomputable def metersPerDegreeLon (latDeg : ℝ) : ℝ :=
  111320 * Real.cos (latDeg * DEG2RAD)

def metersPerDegreeLat : ℝ := 110540

noncomputable def llToLocalMeters (lat0 lon0 lat lon : ℝ) : ℝ × ℝ :=
  ((lon - lon0) * metersPerDegreeLon lat0, (lat - lat0) * metersPerDegreeLat)

/-! ## Data model (src/unnamed/part_001, lines 96-134) -/

/-- `THREE.Vector2`: a 2-D point in local meter coordinates. -/
structure Vec2 where
  x : ℝ
  y : ℝ

/-- `Math.hypot` / `THREE.Vector2.distanceTo`: Euclidean length. -/
noncomputable def hypot (x y : ℝ) : ℝ := Real.sqrt (x * x + y * y)

/-- `THREE.Vector2.distanceTo`. -/
noncomputable def vdist (a b : Vec2) : ℝ := hypot (a.x - b.x) (a.y - b.y)

/-- Optional derived metadata of a footprint. -/
structure FootprintMetadata where
  centroid : Vec2
  hero : Option Bool
  scale : Option ℝ

/-- `Footprint`: polygon points, height, OSM tags and derived metadata.
A JS `Record<string,string>` is modelled as an association list. -/
structure Footprint where
  pts : List Vec2
  height : ℝ
  tags : List (String × String)
  metadata : Option FootprintMetadata

def defaultFootprint : Footprint := ⟨[], 0, [], none⟩

/-! ## Centroid and hero selection (src/unnamed/part_001, lines 300-333) -/

noncomputable def computeFootprintCentroid (pts : List Vec2) : Vec2 :=
  let sumX := (pts.map Vec2.x).sum
  let sumY := (pts.map Vec2.y).sum
  let count : ℝ := pts.length
  ⟨sumX / count, sumY / count⟩

structure PrimarySelection where
  index : Nat
  centroid : Vec2

/-- Squared distance of a footprint's centroid from the local origin,
exactly the `dist` computed inside `selectPrimaryFootprint`. -/
noncomputable def centroidDistSq (fp : Footprint) : ℝ :=
  let c := computeFootprintCentroid fp.pts
  c.x * c.x + c.y * c.y

/-- Euclidean distance of a footprint's centroid from the local origin
(the query point in local coordinates). -/
noncomputable def centroidDist (fp : Footprint) : ℝ :=
  let c := computeFootprintCentroid fp.pts
  hypot c.x c.y

/-- The body of the `forEach` loop of `selectPrimaryFootprint`:
state is `(bestIndex, bestCentroid, bestDist)`, the initial
`bestDist = Infinity` is modelled as `(⊤ : WithTop ℝ)`. -/
noncomputable def selectGo :
    List Footprint → Nat → Nat × Vec2 × WithTop ℝ → Nat × Vec2 × WithTop ℝ
  | [], _, best => best
  | fp :: rest, idx, best =>
    let c := computeFootprintCentroid fp.pts
    let dist : ℝ := c.x * c.x + c.y * c.y
    selectGo rest (idx + 1)
      (if (dist : WithTop ℝ) < best.2.2 then (idx, c, (dist : WithTop ℝ)) else best)

noncomputable def selectPrimaryFootprint (footprints : List Footprint) :
    Option PrimarySelection :=
  if footprints.length = 0 then none
  else
    let r := selectGo footprints 0 (0, ⟨0, 0⟩, ⊤)
    some ⟨r.1, r.2.1⟩

/-! ## Footprint preparation (src/unnamed/part_001, lines 335-369) -/

/-- The `reduce` computing `maxRadius` (initial accumulator `1`). -/
noncomputable def maxRadiusOf (pts : List Vec2) (c : Vec2) : ℝ :=
  pts.foldl (fun acc pt => max acc (hypot (pt.x - c.x) (pt.y - c.y))) 1

/-- Maximum vertex distance from a reference point, starting from `0`
(used to state properties of `maxRadiusOf`, whose JS reduce starts at `1`). -/
noncomputable def vertexMaxDist (pts : List Vec2) (c : Vec2) : ℝ :=
  pts.foldl (fun acc pt => max acc (hypot (pt.x - c.x) (pt.y - c.y))) 0

noncomputable def prepareFootprints (footprints : List Footprint)
    (platformSize : ℝ) : List Footprint :=
  match selectPrimaryFootprint footprints with
  | none => []
  | some selection =>
    let maxRadius := maxRadiusOf (footprints.getD selection.index defaultFootprint).pts
      selection.centroid
    let margin := platformSize * 0.35
    let fitScale := if maxRadius > 0 then margin / maxRadius else 1
    footprints.enum.map (fun p =>
      let idx := p.1
      let fp := p.2
      let centered := fp.pts.map (fun pt =>
        (⟨(pt.x - selection.centroid.x) * fitScale,
          (pt.y - selection.centroid.y) * fitScale⟩ : Vec2))
      { fp with
        pts := centered
        height := fp.height * fitScale
        metadata := some
          { centroid :=
              if idx = selection.index then ⟨0, 0⟩
              else computeFootprintCentroid centered
            hero := some (decide (idx = selection.index))
            scale := some fitScale } })

/-! ### Properties of the hero selection loop -/

theorem selectGo_spec :
    ∀ (l : List Footprint) (idx bi : Nat) (bc : Vec2) (bd : WithTop ℝ),
    (selectGo l idx (bi, bc, bd) = (bi, bc, bd) ∧
      ∀ k (hk : k < l.length),
        bd ≤ (centroidDistSq (l.get ⟨k, hk⟩) : WithTop ℝ)) ∨
    (∃ k, ∃ hk : k < l.length,
      selectGo l idx (bi, bc, bd) =
        (idx + k, computeFootprintCentroid (l.get ⟨k, hk⟩).pts,
          (centroidDistSq (l.get ⟨k, hk⟩) : WithTop ℝ)) ∧
      (centroidDistSq (l.get ⟨k, hk⟩) : WithTop ℝ) < bd ∧
      (∀ j (hj : j < l.length),
        (centroidDistSq (l.get ⟨k, hk⟩) : WithTop ℝ) ≤
          (centroidDistSq (l.get ⟨j, hj⟩) : WithTop ℝ)) ∧
      (∀ j (hj : j < k),
        (centroidDistSq (l.get ⟨k, hk⟩) : WithTop ℝ) <
          (centroidDistSq (l.get ⟨j, Nat.lt_trans hj hk⟩) : WithTop ℝ))) := by
  intro l
  induction l with
  | nil =>
    intro idx bi bc bd
    left
    exact ⟨rfl, fun k hk => absurd hk (by simp)⟩
  | cons fp rest ih =>
    intro idx bi bc bd
    have hstep : selectGo (fp :: rest) idx (bi, bc, bd) =
        selectGo rest (idx + 1)
          (if (centroidDistSq fp : WithTop ℝ) < bd then
            (idx, computeFootprintCentroid fp.pts, (centroidDistSq fp : WithTop ℝ))
          else (bi, bc, bd)) := rfl
    by_cases hlt : (centroidDistSq fp : WithTop ℝ) < bd
    · rw [hstep, if_pos hlt]
      rcases ih (idx + 1) idx (computeFootprintCentroid fp.pts)
          (centroidDistSq fp : WithTop ℝ) with ⟨heq, hall⟩ |
          ⟨k, hk, heq, hlt2, hall, hearlier⟩
      · right
        refine ⟨0, by simp, ?_, hlt, ?_, ?_⟩
        · rw [heq]; simp
        · intro j hj
          cases j with
          | zero => exact le_refl _
          | succ j' =>
            exact hall j' (by simpa using hj)
        · intro j hj; omega
      · right
        refine ⟨k + 1, by simpa using hk, ?_, ?_, ?_, ?_⟩
        · rw [heq]
          have : idx + 1 + k = idx + (k + 1) := by omega
          rw [this]
          rfl
        · exact lt_trans hlt2 hlt
        · intro j hj
          cases j with
          | zero => exact le_of_lt hlt2
          | succ j' => exact hall j' (by simpa using hj)
        · intro j hj
          cases j with
          | zero => exact hlt2
          | succ j' => exact hearlier j' (by omega)
    · rw [hstep, if_neg hlt]
      rcases ih (idx + 1) bi bc bd with ⟨heq, hall⟩ |
          ⟨k, hk, heq, hlt2, hall, hearlier⟩
      · left
        refine ⟨heq, ?_⟩
        intro k hk
        cases k with
        | zero => exact le_of_not_lt hlt
        | succ k' => exact hall k' (by simpa using hk)
      · right
        refine ⟨k + 1, by simpa using hk, ?_, hlt2, ?_, ?_⟩
        · rw [heq]
          have : idx + 1 + k = idx + (k + 1) := by omega
          rw [this]
          rfl
        · intro j hj
          cases j with
          | zero => exact le_trans (le_of_lt hlt2) (le_of_not_lt hlt)
          | succ j' => exact hall j' (by simpa using hj)
        · intro j hj
          cases j with
          | zero => exact lt_of_lt_of_le hlt2 (le_of_not_lt hlt)
          | succ j' => exact hearlier j' (by omega)

theorem centroidDistSq_nonneg (fp : Footprint) : 0 ≤ centroidDistSq fp :=
  add_nonneg (mul_self_nonneg _) (mul_self_nonneg _)

theorem centroidDist_eq_sqrt (fp : Footprint) :
    centroidDist fp = Real.sqrt (centroidDistSq fp) := rfl

theorem selectPrimaryFootprint_spec (fps : List Footprint) (h : fps ≠ []) :
    ∃ sel, selectPrimaryFootprint fps = some sel ∧
      ∃ hs : sel.index < fps.length,
        sel.centroid = computeFootprintCentroid (fps.get ⟨sel.index, hs⟩).pts ∧
        (∀ j (hj : j < fps.length),
          centroidDistSq (fps.get ⟨sel.index, hs⟩) ≤
            centroidDistSq (fps.get ⟨j, hj⟩)) ∧
        (∀ j (hj : j < sel.index),
          centroidDistSq (fps.get ⟨sel.index, hs⟩) <
            centroidDistSq (fps.get ⟨j, Nat.lt_trans hj hs⟩)) := by
  have hlen : fps.length ≠ 0 := by
    intro h0
    exact h (List.length_eq_zero.mp h0)
  rcases selectGo_spec fps 0 0 ⟨0, 0⟩ ⊤ with ⟨heq, hall⟩ |
      ⟨k, hk, heq, _, hall, hearlier⟩
  · obtain ⟨fp0, rest, rfl⟩ : ∃ fp0 rest, fps = fp0 :: rest := by
      cases fps with
      | nil => exact absurd rfl h
      | cons a t => exact ⟨a, t, rfl⟩
    exact absurd (hall 0 (by simp)) (by simp)
  · refine ⟨⟨k, computeFootprintCentroid (fps.get ⟨k, hk⟩).pts⟩, ?_, hk,
      rfl, ?_, ?_⟩
    · unfold selectPrimaryFootprint
      rw [if_neg hlen]
      rw [show selectGo fps 0 (0, ⟨0, 0⟩, ⊤) =
        (0 + k, computeFootprintCentroid (fps.get ⟨k, hk⟩).pts,
          (centroidDistSq (fps.get ⟨k, hk⟩) : WithTop ℝ)) from heq]
      simp
    · intro j hj
      exact_mod_cast hall j hj
    · intro j hj
      exact_mod_cast hearlier j hj

/-- C1: for a non-empty fetched list, the selected hero footprint is one
whose centroid — the arithmetic mean of its points — is nearest the
origin of the local frame (the query point), the first in list order
among ties (every earlier footprint is strictly farther); for the empty
list no hero is selected and `prepareFootprints` returns the empty
list. -/
theorem selectPrimaryFootprint_nearest (fps : List Footprint)
    (h : fps ≠ []) :
    (∃ sel, selectPrimaryFootprint fps = some sel ∧
      ∃ hs : sel.index < fps.length,
        sel.centroid = computeFootprintCentroid (fps.get ⟨sel.index, hs⟩).pts ∧
        (∀ j (hj : j < fps.length),
          centroidDist (fps.get ⟨sel.index, hs⟩) ≤
            centroidDist (fps.get ⟨j, hj⟩)) ∧
        (∀ j (hj : j < sel.index),
          centroidDist (fps.get ⟨sel.index, hs⟩) <
            centroidDist (fps.get ⟨j, Nat.lt_trans hj hs⟩))) ∧
    selectPrimaryFootprint ([] : List Footprint) = none ∧
    (∀ platformSize : ℝ, prepareFootprints [] platformSize = []) := by
  refine ⟨?_, rfl, fun _ => rfl⟩
  obtain ⟨sel, hsel, hs, hc, hle, hlt⟩ := selectPrimaryFootprint_spec fps h
  refine ⟨sel, hsel, hs, hc, ?_, ?_⟩
  · intro j hj
    rw [centroidDist_eq_sqrt, centroidDist_eq_sqrt]
    exact Real.sqrt_le_sqrt (hle j hj)
  · intro j hj
    rw [centroidDist_eq_sqrt, centroidDist_eq_sqrt]
    exact Real.sqrt_lt_sqrt (centroidDistSq_nonneg _) (hlt j hj)

/-- A concrete one-footprint list for instantiating the selection and
preparation theorems. -/
noncomputable def exHero : List Footprint := [⟨[⟨6, 0⟩, ⟨0, 0⟩], 10, [], none⟩]

theorem selectPrimaryFootprint_nearest_witness :
    (∃ sel, selectPrimaryFootprint exHero = some sel ∧
      ∃ hs : sel.index < exHero.length,
        sel.centroid =
          computeFootprintCentroid (exHero.get ⟨sel.index, hs⟩).pts ∧
        (∀ j (hj : j < exHero.length),
          centroidDist (exHero.get ⟨sel.index, hs⟩) ≤
            centroidDist (exHero.get ⟨j, hj⟩)) ∧
        (∀ j (hj : j < sel.index),
          centroidDist (exHero.get ⟨sel.index, hs⟩) <
            centroidDist (exHero.get ⟨j, Nat.lt_trans hj hs⟩))) ∧
    selectPrimaryFootprint ([] : List Footprint) = none ∧
    (∀ platformSize : ℝ, prepareFootprints [] platformSize = []) :=
  selectPrimaryFootprint_nearest exHero (by simp [exHero])

/-! ### Properties of the preparation/fitting step -/

theorem foldlMax_init (g : Vec2 → ℝ) (l : List Vec2) :
    ∀ a b : ℝ, l.foldl (fun acc pt => max acc (g pt)) (max a b) =
      max a (l.foldl (fun acc pt => max acc (g pt)) b) := by
  induction l with
  | nil => intro a b; rfl
  | cons p t ih =>
    intro a b
    simp only [List.foldl_cons]
    rw [max_assoc, ih]

theorem maxRadiusOf_eq (pts : List Vec2) (c : Vec2) :
    maxRadiusOf pts c = max 1 (vertexMaxDist pts c) := by
  unfold maxRadiusOf vertexMaxDist
  conv_lhs => rw [show (1 : ℝ) = max 1 0 from (max_eq_left zero_le_one).symm]
  rw [foldlMax_init (fun pt => hypot (pt.x - c.x) (pt.y - c.y)) pts 1 0]

theorem hypot_mul_nonneg (x y s : ℝ) (hs : 0 ≤ s) :
    hypot (x * s) (y * s) = s * hypot x y := by
  unfold hypot
  have hx : x * s * (x * s) + y * s * (y * s) = s ^ 2 * (x * x + y * y) := by
    ring
  rw [hx, Real.sqrt_mul (sq_nonneg s), Real.sqrt_sq hs]

theorem hypot_x_zero (x : ℝ) : hypot x 0 = |x| := by
  unfold hypot
  rw [mul_zero, add_zero, ← pow_two, Real.sqrt_sq_eq_abs]

theorem vertexMaxDist_scaled (pts : List Vec2) (c : Vec2) (s : ℝ)
    (hs : 0 ≤ s) :
    vertexMaxDist (pts.map (fun pt =>
      (⟨(pt.x - c.x) * s, (pt.y - c.y) * s⟩ : Vec2))) ⟨0, 0⟩ =
      s * vertexMaxDist pts c := by
  unfold vertexMaxDist
  suffices h : ∀ a : ℝ,
      (pts.map (fun pt => (⟨(pt.x - c.x) * s, (pt.y - c.y) * s⟩ : Vec2))).foldl
        (fun acc pt => max acc (hypot (pt.x - (⟨0, 0⟩ : Vec2).x)
          (pt.y - (⟨0, 0⟩ : Vec2).y))) (s * a) =
      s * pts.foldl
        (fun acc pt => max acc (hypot (pt.x - c.x) (pt.y - c.y))) a by
    have h0 := h 0
    rw [mul_zero] at h0
    exact h0
  intro a
  induction pts generalizing a with
  | nil => simp
  | cons p t ih =>
    simp only [List.map_cons, List.foldl_cons]
    have hh : hypot
        ((⟨(p.x - c.x) * s, (p.y - c.y) * s⟩ : Vec2).x - (⟨0, 0⟩ : Vec2).x)
        ((⟨(p.x - c.x) * s, (p.y - c.y) * s⟩ : Vec2).y - (⟨0, 0⟩ : Vec2).y) =
        s * hypot (p.x - c.x) (p.y - c.y) := by
      show hypot ((p.x - c.x) * s - 0) ((p.y - c.y) * s - 0) = _
      rw [sub_zero, sub_zero]
      exact hypot_mul_nonneg _ _ s hs
    rw [hh, show max (s * a) (s * hypot (p.x - c.x) (p.y - c.y)) =
      s * max a (hypot (p.x - c.x) (p.y - c.y)) from
        (mul_max_of_nonneg _ _ hs).symm]
    exact ih _

/-- The `fitScale` computed inside `prepareFootprints`. -/
noncomputable def prepFitScaleVal (fps : List Footprint) (platformSize : ℝ)
    (sel : PrimarySelection) : ℝ :=
  let maxRadius :=
    maxRadiusOf (fps.getD sel.index defaultFootprint).pts sel.centroid
  if maxRadius > 0 then platformSize * 0.35 / maxRadius else 1

theorem prepareFootprints_eq (fps : List Footprint) (platformSize : ℝ)
    (sel : PrimarySelection)
    (hsel : selectPrimaryFootprint fps = some sel) :
    prepareFootprints fps platformSize =
      fps.enum.map (fun p =>
        { p.2 with
          pts := p.2.pts.map (fun pt =>
            (⟨(pt.x - sel.centroid.x) * prepFitScaleVal fps platformSize sel,
              (pt.y - sel.centroid.y) *
                prepFitScaleVal fps platformSize sel⟩ : Vec2))
          height := p.2.height * prepFitScaleVal fps platformSize sel
          metadata := some
            { centroid :=
                if p.1 = sel.index then ⟨0, 0⟩
                else computeFootprintCentroid (p.2.pts.map (fun pt =>
                  (⟨(pt.x - sel.centroid.x) *
                      prepFitScaleVal fps platformSize sel,
                    (pt.y - sel.centroid.y) *
                      prepFitScaleVal fps platformSize sel⟩ : Vec2)))
              hero := some (decide (p.1 = sel.index))
              scale := some (prepFitScaleVal fps platformSize sel) } }) := by
  unfold prepareFootprints prepFitScaleVal
  rw [hsel]

theorem prepFitScaleVal_eq (fps : List Footprint) (platformSize : ℝ)
    (sel : PrimarySelection)
    (hbig : 1 < vertexMaxDist (fps.getD sel.index defaultFootprint).pts
      sel.centroid) :
    prepFitScaleVal fps platformSize sel = platformSize * 0.35 /
      vertexMaxDist (fps.getD sel.index defaultFootprint).pts sel.centroid := by
  unfold prepFitScaleVal
  rw [maxRadiusOf_eq, max_eq_right (le_of_lt hbig)]
  rw [if_pos (lt_trans one_pos hbig)]

theorem prepared_getD (fps : List Footprint) (f : Nat × Footprint → Footprint)
    (i : Nat) (hi : i < fps.length) :
    (fps.enum.map f).getD i defaultFootprint =
      f (i, fps.getD i defaultFootprint) := by
  have h1 : fps.get? i = some (fps.getD i defaultFootprint) := by
    rw [List.getD_eq_get?]
    cases h : fps.get? i with
    | none =>
      rw [List.get?_eq_none] at h
      omega
    | some a => rfl
  have h2 : fps.enum.get? i = some (i, fps.getD i defaultFootprint) := by
    rw [List.get?_enum, h1]
    rfl
  have h3 : (fps.enum.map f).get? i =
      some (f (i, fps.getD i defaultFootprint)) := by
    rw [List.get?_map, h2]
    rfl
  rw [List.getD_eq_get?, h3]
  rfl

/-- C6: for a non-empty list, `prepareFootprints` keeps the length,
marks exactly the selected index as hero, records the hero centroid as
the origin, rescales every footprint's points and height by the one
common fit scale `platformSize * 0.35 / heroMaxDist`, and the hero's
maximum vertex distance from its centroid becomes `0.35 * platformSize`
(under the hypotheses that the platform size is positive and the hero's
maximum vertex distance exceeds the floor of 1). -/
theorem prepareFootprints_fit (fps : List Footprint) (platformSize : ℝ)
    (sel : PrimarySelection) (hsel : selectPrimaryFootprint fps = some sel)
    (hs : sel.index < fps.length) (hp : 0 < platformSize)
    (hbig : 1 < vertexMaxDist (fps.getD sel.index defaultFootprint).pts
      sel.centroid) :
    (prepareFootprints fps platformSize).length = fps.length ∧
    (∀ i, i < fps.length →
      ∃ m, ((prepareFootprints fps platformSize).getD i
          defaultFootprint).metadata = some m ∧
        (m.hero = some true ↔ i = sel.index) ∧
        m.scale = some (platformSize * 0.35 /
          vertexMaxDist (fps.getD sel.index defaultFootprint).pts
            sel.centroid) ∧
        (i = sel.index → m.centroid = ⟨0, 0⟩) ∧
        ((prepareFootprints fps platformSize).getD i defaultFootprint).pts =
          (fps.getD i defaultFootprint).pts.map (fun pt =>
            (⟨(pt.x - sel.centroid.x) * (platformSize * 0.35 /
                vertexMaxDist (fps.getD sel.index defaultFootprint).pts
                  sel.centroid),
              (pt.y - sel.centroid.y) * (platformSize * 0.35 /
                vertexMaxDist (fps.getD sel.index defaultFootprint).pts
                  sel.centroid)⟩ : Vec2)) ∧
        ((prepareFootprints fps platformSize).getD i
            defaultFootprint).height =
          (fps.getD i defaultFootprint).height * (platformSize * 0.35 /
            vertexMaxDist (fps.getD sel.index defaultFootprint).pts
              sel.centroid)) ∧
    vertexMaxDist ((prepareFootprints fps platformSize).getD sel.index
        defaultFootprint).pts ⟨0, 0⟩ = platformSize * 0.35 := by
  have hv0 : 0 < vertexMaxDist (fps.getD sel.index defaultFootprint).pts
      sel.centroid := lt_trans one_pos hbig
  have hscale := prepFitScaleVal_eq fps platformSize sel hbig
  have hsnn : 0 ≤ platformSize * 0.35 /
      vertexMaxDist (fps.getD sel.index defaultFootprint).pts sel.centroid :=
    div_nonneg (mul_nonneg (le_of_lt hp) (by norm_num)) (le_of_lt hv0)
  have hP := prepareFootprints_eq fps platformSize sel hsel
  refine ⟨?_, ?_, ?_⟩
  · rw [hP]
    simp [List.enum_length]
  · intro i hi
    rw [hP, prepared_getD fps _ i hi]
    refine ⟨_, rfl, by simp, ?_, ?_, ?_, ?_⟩
    · rw [hscale]
    · intro hisel
      show (if i = sel.index then (⟨0, 0⟩ : Vec2) else _) = _
      rw [if_pos hisel]
    · show (fps.getD i defaultFootprint).pts.map _ = _
      rw [hscale]
    · show (fps.getD i defaultFootprint).height *
        prepFitScaleVal fps platformSize sel = _
      rw [hscale]
  · rw [hP, prepared_getD fps _ sel.index hs]
    show vertexMaxDist ((fps.getD sel.index defaultFootprint).pts.map
      (fun pt =>
        (⟨(pt.x - sel.centroid.x) * prepFitScaleVal fps platformSize sel,
          (pt.y - sel.centroid.y) *
            prepFitScaleVal fps platformSize sel⟩ : Vec2))) ⟨0, 0⟩ =
      platformSize * 0.35
    rw [hscale]
    rw [vertexMaxDist_scaled _ _ _ hsnn]
    exact div_mul_cancel₀ _ (ne_of_gt hv0)

/-- The selection `selectPrimaryFootprint` makes on `exHero`. -/
noncomputable def exSel : PrimarySelection := ⟨0, ⟨3, 0⟩⟩

theorem exHero_centroid :
    computeFootprintCentroid [⟨6, 0⟩, ⟨0, 0⟩] = (⟨3, 0⟩ : Vec2) := by
  unfold computeFootprintCentroid
  simp [Vec2.mk.injEq]
  norm_num

theorem exHero_sel : selectPrimaryFootprint exHero = some exSel := by
  have hgo : selectGo exHero 0 (0, ⟨0, 0⟩, ⊤) =
      (0, computeFootprintCentroid [⟨6, 0⟩, ⟨0, 0⟩],
        (((computeFootprintCentroid [⟨6, 0⟩, ⟨0, 0⟩]).x *
            (computeFootprintCentroid [⟨6, 0⟩, ⟨0, 0⟩]).x +
          (computeFootprintCentroid [⟨6, 0⟩, ⟨0, 0⟩]).y *
            (computeFootprintCentroid [⟨6, 0⟩, ⟨0, 0⟩]).y : ℝ) :
          WithTop ℝ)) := by
    show selectGo [(⟨[⟨6, 0⟩, ⟨0, 0⟩], 10, [], none⟩ : Footprint)] 0
      (0, ⟨0, 0⟩, ⊤) = _
    unfold selectGo
    dsimp only
    rw [if_pos (WithTop.coe_lt_top _)]
    rfl
  unfold selectPrimaryFootprint
  rw [if_neg (by simp [exHero]), hgo, exHero_centroid]
  rfl

theorem hypot_diag_63 : hypot ((6 : ℝ) - 3) ((0 : ℝ) - 0) = 3 := by
  rw [show (6 : ℝ) - 3 = 3 by norm_num, show (0 : ℝ) - 0 = 0 by norm_num,
    hypot_x_zero, abs_of_nonneg (by norm_num : (0 : ℝ) ≤ 3)]

theorem hypot_diag_03 : hypot ((0 : ℝ) - 3) ((0 : ℝ) - 0) = 3 := by
  rw [show (0 : ℝ) - 3 = -3 by norm_num, show (0 : ℝ) - 0 = 0 by norm_num,
    hypot_x_zero, abs_neg, abs_of_nonneg (by norm_num : (0 : ℝ) ≤ 3)]

theorem exHero_vertexMax :
    vertexMaxDist (exHero.getD exSel.index defaultFootprint).pts
      exSel.centroid = 3 := by
  show vertexMaxDist [⟨6, 0⟩, ⟨0, 0⟩] ⟨3, 0⟩ = 3
  unfold vertexMaxDist
  simp only [List.foldl_cons, List.foldl_nil]
  show max (max 0 (hypot ((6 : ℝ) - 3) ((0 : ℝ) - 0)))
    (hypot ((0 : ℝ) - 3) ((0 : ℝ) - 0)) = 3
  rw [hypot_diag_63, hypot_diag_03,
    max_eq_right (by norm_num : (0 : ℝ) ≤ 3), max_self]

theorem prepareFootprints_fit_witness :
    (prepareFootprints exHero 10).length = exHero.length ∧
    (∀ i, i < exHero.length →
      ∃ m, ((prepareFootprints exHero 10).getD i
          defaultFootprint).metadata = some m ∧
        (m.hero = some true ↔ i = exSel.index) ∧
        m.scale = some ((10 : ℝ) * 0.35 /
          vertexMaxDist (exHero.getD exSel.index defaultFootprint).pts
            exSel.centroid) ∧
        (i = exSel.index → m.centroid = ⟨0, 0⟩) ∧
        ((prepareFootprints exHero 10).getD i defaultFootprint).pts =
          (exHero.getD i defaultFootprint).pts.map (fun pt =>
            (⟨(pt.x - exSel.centroid.x) * ((10 : ℝ) * 0.35 /
                vertexMaxDist (exHero.getD exSel.index defaultFootprint).pts
                  exSel.centroid),
              (pt.y - exSel.centroid.y) * ((10 : ℝ) * 0.35 /
                vertexMaxDist (exHero.getD exSel.index defaultFootprint).pts
                  exSel.centroid)⟩ : Vec2)) ∧
        ((prepareFootprints exHero 10).getD i
            defaultFootprint).height =
          (exHero.getD i defaultFootprint).height * ((10 : ℝ) * 0.35 /
            vertexMaxDist (exHero.getD exSel.index defaultFootprint).pts
              exSel.centroid)) ∧
    vertexMaxDist ((prepareFootprints exHero 10).getD exSel.index
        defaultFootprint).pts ⟨0, 0⟩ = (10 : ℝ) * 0.35 :=
  prepareFootprints_fit exHero 10 exSel exHero_sel
    (by simp [exHero, exSel]) (by norm_num)
    (by rw [exHero_vertexMax]; norm_num)

/-! ## JS string/number helpers used by the fetcher -/

/-- Lookup in a JS `Record<string,string>` modelled as an association list. -/
def tagsLookup (tags : List (String × String)) (key : String) : Option String :=
  (tags.find? (fun p => p.1 = key)).map (fun p => p.2)

/-- JS truthiness of an optional string: `undefined` and `""` are falsy. -/
def truthy : Option String → Bool
  | none => false
  | some v => v ≠ ""

def digitsToNat (ds : List Char) : Nat :=
  ds.foldl (fun n c => 10 * n + (c.toNat - '0'.toNat)) 0

/-- JS `parseFloat`, idealised over `ℚ`: skips leading whitespace, reads an
optional sign, a decimal mantissa and an optional exponent, ignoring any
trailing characters; returns `none` when no digits are found (`NaN`). -/
def parseFloatJS (s : String) : Option ℚ :=
  let cs := s.data.dropWhile Char.isWhitespace
  let (sign, cs1) : ℚ × List Char :=
    match cs with
    | '-' :: r => (-1, r)
    | '+' :: r => (1, r)
    | _ => (1, cs)
  let ip := cs1.takeWhile Char.isDigit
  let cs2 := cs1.dropWhile Char.isDigit
  let (fp, cs3) : List Char × List Char :=
    match cs2 with
    | '.' :: r => (r.takeWhile Char.isDigit, r.dropWhile Char.isDigit)
    | _ => ([], cs2)
  if ip.isEmpty ∧ fp.isEmpty then none
  else
    let mantissa : ℚ :=
      (digitsToNat ip : ℚ) + (digitsToNat fp : ℚ) / ((10 : ℚ) ^ fp.length)
    let expPart : ℤ :=
      match cs3 with
      | 'e' :: r | 'E' :: r =>
        let (esign, r1) : ℤ × List Char :=
          match r with
          | '-' :: t => (-1, t)
          | '+' :: t => (1, t)
          | _ => (1, r)
        let eds := r1.takeWhile Char.isDigit
        if eds.isEmpty then 0 else esign * (digitsToNat eds : ℤ)
      | _ => 0
    some (sign * mantissa * (10 : ℚ) ^ expPart)

/-- `String(tags.height).replace(/m$/i, "")`: strip one trailing `m`/`M`. -/
def stripTrailingM (s : String) : String :=
  match s.data.getLast? with
  | some 'm' => ⟨s.data.dropLast⟩
  | some 'M' => ⟨s.data.dropLast⟩
  | _ => s

/-- Substring test on character lists (JS `String.prototype.includes`). -/
def containsSub (pat : List Char) : List Char → Bool
  | [] => pat.isEmpty
  | c :: t => if pat.isPrefixOf (c :: t) then true else containsSub pat t

def strIncludes (s pat : String) : Bool := containsSub pat.data s.data

/-- JS `String.prototype.toLowerCase` (ASCII). -/
def jsToLower (s : String) : String := ⟨s.data.map Char.toLower⟩

/-- JS `String.prototype.trim`: strip leading and trailing whitespace. -/
def jsTrim (s : String) : String :=
  ⟨((s.data.dropWhile Char.isWhitespace).reverse.dropWhile
      Char.isWhitespace).reverse⟩

/-- Split a character list at whitespace (JS `str.split(/\s+/)`; runs of
separators yield empty pieces here, which never contain `'+'` and so do
not affect the `find` below). -/
def splitWsAux : List Char → List Char → List (List Char)
  | [], acc => [acc.reverse]
  | c :: t, acc =>
    if c.isWhitespace then acc.reverse :: splitWsAux t []
    else splitWsAux t (c :: acc)

/-! ## Overpass response model (src/unnamed/part_001, lines 121-134) -/

structure OverpassCoordinate where
  lat : ℝ
  lon : ℝ

structure OverpassElement where
  type : String
  geometry : Option (List OverpassCoordinate)
  tags : Option (List (String × String))

structure OverpassResponse where
  elements : Option (List OverpassElement)

/-! ## Height heuristic and footprint construction
(src/unnamed/part_001, lines 209-240).  `Math.random()` is modelled by an
explicit stream `rand : Nat → ℝ` advanced by a counter each time the code
draws a random number. -/

noncomputable def computeHeightM (tags : List (String × String))
    (rand : Nat → ℝ) (k : Nat) : ℝ × Nat :=
  let h1 : Option ℝ :=
    match tagsLookup tags "height" with
    | some v =>
      if v = "" then none
      else
        match parseFloatJS (stripTrailingM v) with
        | some q => some (q : ℝ)
        | none => none
    | none => none
  match h1 with
  | some h => (h, k)
  | none =>
    let h2 : Option ℝ :=
      match tagsLookup tags "building:levels" with
      | some v =>
        if v = "" then none
        else
          match parseFloatJS v with
          | some levels => some (max 3 (min 60 ((levels : ℝ) * 3)))
          | none => none
      | none => none
    match h2 with
    | some h => (h, k)
    | none =>
      let t := jsToLower ((tagsLookup tags "building").getD "")
      if strIncludes t "house" ∨ strIncludes t "residential" then
        (9 + rand k * 6, k + 1)
      else if strIncludes t "garage" then (4 + rand k * 2, k + 1)
      else (12 + rand k * 18, k + 1)

/-- The per-coordinate body of `el.geometry.map(...)`: project to local
meters and build the 2-D point. -/
noncomputable def toLocalVec (lat lon : ℝ) (coord : OverpassCoordinate) : Vec2 :=
  let m := llToLocalMeters lat lon coord.lat coord.lon
  ⟨m.1, m.2⟩

/-- The closing step: append a copy of the first point whenever the two
endpoints are more than 0.01 m apart. -/
noncomputable def closeRing (pts : List Vec2) : List Vec2 :=
  if vdist (pts.getD 0 ⟨0, 0⟩) (pts.getLastD ⟨0, 0⟩) > 0.01 then
    pts ++ [pts.getD 0 ⟨0, 0⟩]
  else pts

/-- The `for (const el of elements)` loop of `fetchBuildings` that builds
the footprint list from a successful Overpass response. -/
noncomputable def buildFootprints (lat lon : ℝ) (rand : Nat → ℝ) :
    List OverpassElement → Nat → List Footprint
  | [], _ => []
  | el :: rest, k =>
    if el.type ≠ "way" then buildFootprints lat lon rand rest k
    else
      match el.geometry with
      | none => buildFootprints lat lon rand rest k
      | some g =>
        if g.length < 3 then buildFootprints lat lon rand rest k
        else
          let pts := g.map (toLocalVec lat lon)
          let closed := closeRing pts
          let tags := el.tags.getD []
          let hk := computeHeightM tags rand k
          ⟨closed, hk.1, tags, none⟩ :: buildFootprints lat lon rand rest hk.2

noncomputable def processedFootprints (lat lon : ℝ) (rand : Nat → ℝ)
    (data : OverpassResponse) : List Footprint :=
  buildFootprints lat lon rand (data.elements.getD []) 0

/-! ## Mirror endpoints and the retry loops
(src/unnamed/part_001, lines 139-264). -/

structure Endpoint where
  url : String
  label : String
deriving DecidableEq

def OVERPASS_ENDPOINTS : List Endpoint :=
  [⟨"https://overpass-api.de/api/interpreter", "de"⟩,
   ⟨"https://overpass.kumi.systems/api/interpreter", "kumi"⟩,
   ⟨"https://overpass.openstreetmap.ru/api/interpreter", "ru"⟩]

/-- The bounding box carried by the Overpass QL query (the literal QL
string formatting is not modelled; the oracle receives the numbers). -/
structure OverpassQuery where
  south : ℝ
  west : ℝ
  north : ℝ
  east : ℝ

/-- Outcome of one `fetch` to an Overpass mirror: a parsed JSON body, a
non-2xx HTTP status, or a thrown error (network failure or JSON failure). -/
inductive FetchOutcome where
  | ok (data : OverpassResponse)
  | httpError (status : Nat)
  | netError (msg : String)

/-- Observable request/delay events of the retry loops. -/
inductive ReqEvent where
  | request (label : String) (attempt : Nat)
  | delay (ms : Nat)
deriving DecidableEq

abbrev FetchOracle := Endpoint → OverpassQuery → Nat → FetchOutcome

/-- The inner `for (attempt = 0; attempt < 2; attempt++)` loop for one
endpoint.  State: remaining iterations, current `attempt`, oracle call
counter `k`, and `lastError`.  Returns the footprints on success, plus the
next counter, the updated `lastError` and the event trace. -/
noncomputable def tryAttempts (oracle : FetchOracle) (q : OverpassQuery)
    (lat lon : ℝ) (rand : Nat → ℝ) (e : Endpoint) :
    Nat → Nat → Nat → Option String →
      Option (List Footprint) × Nat × Option String × List ReqEvent
  | 0, _, k, lastError => (none, k, lastError, [])
  | remaining + 1, attempt, k, lastError =>
    match oracle e q k with
    | .ok data =>
      (some (processedFootprints lat lon rand data), k + 1, lastError,
        [.request e.label attempt])
    | .httpError s =>
      if s = 504 ∨ s = 429 ∨ s = 503 then
        -- timeout or rate limit: wait and `continue`
        let r := tryAttempts oracle q lat lon rand e remaining (attempt + 1)
          (k + 1) lastError
        (r.1, r.2.1, r.2.2.1,
          .request e.label attempt :: .delay (2000 * (attempt + 1)) :: r.2.2.2)
      else
        -- `throw new Error(...)`, caught by the attempt-level catch
        let msg := "Overpass API returned " ++ toString s
        if attempt < 1 then
          let r := tryAttempts oracle q lat lon rand e remaining (attempt + 1)
            (k + 1) (some msg)
          (r.1, r.2.1, r.2.2.1,
            .request e.label attempt :: .delay (2000 * (attempt + 1)) :: r.2.2.2)
        else (none, k + 1, some msg, [.request e.label attempt])
    | .netError msg =>
      if attempt < 1 then
        let r := tryAttempts oracle q lat lon rand e remaining (attempt + 1)
          (k + 1) (some msg)
        (r.1, r.2.1, r.2.2.1,
          .request e.label attempt :: .delay (2000 * (attempt + 1)) :: r.2.2.2)
      else (none, k + 1, some msg, [.request e.label attempt])

/-- The outer loop over `OVERPASS_ENDPOINTS`. -/
noncomputable def tryEndpoints (oracle : FetchOracle) (q : OverpassQuery)
    (lat lon : ℝ) (rand : Nat → ℝ) :
    List Endpoint → Nat → Option String →
      Except String (List Footprint) × List ReqEvent
  | [], _, lastError =>
    (.error ("Building data unavailable (last error: " ++
      lastError.getD "unknown" ++
      "). Try again in a minute or reduce the search area."), [])
  | e :: rest, k, lastError =>
    let r := tryAttempts oracle q lat lon rand e 2 0 k lastError
    match r.1 with
    | some fps => (.ok fps, r.2.2.2)
    | none =>
      let r2 := tryEndpoints oracle q lat lon rand rest r.2.1 r.2.2.1
      (r2.1, r.2.2.2 ++ r2.2)

/-- The bounding box computed at the top of `fetchBuildings`. -/
noncomputable def overpassBBox (lat lon sizeMeters : ℝ) : OverpassQuery :=
  let half := sizeMeters / 2
  let dLat := half / metersPerDegreeLat
  let dLon := half / metersPerDegreeLon lat
  ⟨lat - dLat, lon - dLon, lat + dLat, lon + dLon⟩

/-- `fetchBuildings` (src/unnamed/part_001, lines 149-264): computes the
bounding box and runs the endpoint/retry loops; a thrown error is an
`Except.error` result. -/
noncomputable def fetchBuildings (oracle : FetchOracle) (rand : Nat → ℝ)
    (lat lon sizeMeters : ℝ) :
    Except String (List Footprint) × List ReqEvent :=
  tryEndpoints oracle (overpassBBox lat lon sizeMeters) lat lon rand
    OVERPASS_ENDPOINTS 0 none

/-! ### Observable behaviour of the retry loops -/

/-- The element filter of the footprint-building loop: only `way`
elements with at least 3 geometry points are used. -/
def usableElement (el : OverpassElement) : Bool :=
  el.type == "way" &&
    (match el.geometry with
     | some g => decide (3 ≤ g.length)
     | none => false)

/-- Each endpoint listed once per possible attempt. -/
def doubled (eps : List Endpoint) : List Endpoint :=
  eps.bind (fun e => [e, e])

/-- The request schedule when every attempt fails: each endpoint in list
order, two attempts each. -/
def canonRequests (eps : List Endpoint) : List (String × Nat) :=
  eps.bind (fun e => [(e.label, 0), (e.label, 1)])

/-- The `(label, attempt)` pairs of the requests in an event trace. -/
def requestsOf (tr : List ReqEvent) : List (String × Nat) :=
  tr.filterMap (fun ev =>
    match ev with
    | .request l a => some (l, a)
    | .delay _ => none)

/-- The fetch outcome was not a parsed 2xx response. -/
def failedFetch : FetchOutcome → Prop
  | .ok _ => False
  | .httpError _ => True
  | .netError _ => True

/-- One failed attempt: how `lastError` evolves for a retryable status, a
non-retryable status (the thrown `Overpass API returned _`), or a thrown
network/JSON error. -/
def failStep (o : FetchOutcome) (le le' : Option String) : Prop :=
  (∃ s, o = .httpError s ∧ (s = 504 ∨ s = 429 ∨ s = 503) ∧ le' = le) ∨
  (∃ s, o = .httpError s ∧ ¬(s = 504 ∨ s = 429 ∨ s = 503) ∧
    le' = some ("Overpass API returned " ++ toString s)) ∨
  (∃ m, o = .netError m ∧ le' = some m)

theorem failStep_failed {o : FetchOutcome} {le le' : Option String}
    (h : failStep o le le') : failedFetch o := by
  rcases h with ⟨s, rfl, _, _⟩ | ⟨s, rfl, _, _⟩ | ⟨m, rfl, _⟩ <;> trivial

/-- Every delay immediately preceding a retry (a request with a positive
attempt number) is the fixed 2000 ms backoff. -/
def fixedRetryDelays (tr : List ReqEvent) : Prop :=
  ∀ i d l a, tr.get? i = some (.delay d) →
    tr.get? (i + 1) = some (.request l a) → 0 < a → d = 2000

theorem fixedRetryDelays_append {tr1 tr2 : List ReqEvent}
    (h1 : fixedRetryDelays tr1) (h2 : fixedRetryDelays tr2)
    (hh : ∀ ev, tr2.head? = some ev → ∃ l, ev = .request l 0) :
    fixedRetryDelays (tr1 ++ tr2) := by
  intro i d l a hd hr ha
  by_cases hi : i + 1 < tr1.length
  · rw [List.get?_append (by omega)] at hd
    rw [List.get?_append hi] at hr
    exact h1 i d l a hd hr ha
  · by_cases hi2 : i < tr1.length
    · rw [List.get?_append_right (by omega)] at hr
      have he : i + 1 - tr1.length = 0 := by omega
      rw [he] at hr
      have hhead : tr2.head? = some (.request l a) := by
        cases tr2 with
        | nil => simp at hr
        | cons x t => simpa using hr
      obtain ⟨l', hl'⟩ := hh _ hhead
      injection hl' with hL hA
      omega
    · have hle : tr1.length ≤ i := by omega
      rw [List.get?_append_right hle] at hd
      rw [List.get?_append_right (by omega)] at hr
      have he : i + 1 - tr1.length = (i - tr1.length) + 1 := by omega
      rw [he] at hr
      exact h2 _ d l a hd hr ha

/-- Case analysis of the two-attempt loop on one endpoint. -/
theorem tryAttempts_cases (oracle : FetchOracle) (q : OverpassQuery)
    (lat lon : ℝ) (rand : Nat → ℝ) (e : Endpoint) (k : Nat)
    (le : Option String) :
    (∃ data, oracle e q k = .ok data ∧
      tryAttempts oracle q lat lon rand e 2 0 k le =
        (some (processedFootprints lat lon rand data), k + 1, le,
          [.request e.label 0])) ∨
    (∃ le1 data, failStep (oracle e q k) le le1 ∧
      oracle e q (k + 1) = .ok data ∧
      tryAttempts oracle q lat lon rand e 2 0 k le =
        (some (processedFootprints lat lon rand data), k + 2, le1,
          [.request e.label 0, .delay 2000, .request e.label 1])) ∨
    (∃ le1 le2, failStep (oracle e q k) le le1 ∧
      failStep (oracle e q (k + 1)) le1 le2 ∧
      (tryAttempts oracle q lat lon rand e 2 0 k le =
        (none, k + 2, le2,
          [.request e.label 0, .delay 2000, .request e.label 1]) ∨
       tryAttempts oracle q lat lon rand e 2 0 k le =
        (none, k + 2, le2,
          [.request e.label 0, .delay 2000, .request e.label 1,
           .delay 4000]))) := by
  rcases h1 : oracle e q k with data | s | m
  · exact Or.inl ⟨data, rfl, by simp [tryAttempts, h1]⟩
  · by_cases hs : s = 504 ∨ s = 429 ∨ s = 503
    · rcases h2 : oracle e q (k + 1) with data2 | s2 | m2
      · refine Or.inr (Or.inl ⟨le, data2, Or.inl ⟨s, rfl, hs, rfl⟩, rfl, ?_⟩)
        simp [tryAttempts, h1, h2, hs]
      · by_cases hs2 : s2 = 504 ∨ s2 = 429 ∨ s2 = 503
        · refine Or.inr (Or.inr ⟨le, le, Or.inl ⟨s, rfl, hs, rfl⟩,
            Or.inl ⟨s2, rfl, hs2, rfl⟩, Or.inr ?_⟩)
          simp [tryAttempts, h1, h2, hs, hs2]
        · refine Or.inr (Or.inr ⟨le,
            some ("Overpass API returned " ++ toString s2),
            Or.inl ⟨s, rfl, hs, rfl⟩, Or.inr (Or.inl ⟨s2, rfl, hs2, rfl⟩),
            Or.inl ?_⟩)
          simp [tryAttempts, h1, h2, hs, hs2]
      · refine Or.inr (Or.inr ⟨le, some m2, Or.inl ⟨s, rfl, hs, rfl⟩,
          Or.inr (Or.inr ⟨m2, rfl, rfl⟩), Or.inl ?_⟩)
        simp [tryAttempts, h1, h2, hs]
    · rcases h2 : oracle e q (k + 1) with data2 | s2 | m2
      · refine Or.inr (Or.inl ⟨some ("Overpass API returned " ++ toString s),
          data2, Or.inr (Or.inl ⟨s, rfl, hs, rfl⟩), rfl, ?_⟩)
        simp [tryAttempts, h1, h2, hs]
      · by_cases hs2 : s2 = 504 ∨ s2 = 429 ∨ s2 = 503
        · refine Or.inr (Or.inr ⟨some ("Overpass API returned " ++ toString s),
            some ("Overpass API returned " ++ toString s),
            Or.inr (Or.inl ⟨s, rfl, hs, rfl⟩), Or.inl ⟨s2, rfl, hs2, rfl⟩,
            Or.inr ?_⟩)
          simp [tryAttempts, h1, h2, hs, hs2]
        · refine Or.inr (Or.inr ⟨some ("Overpass API returned " ++ toString s),
            some ("Overpass API returned " ++ toString s2),
            Or.inr (Or.inl ⟨s, rfl, hs, rfl⟩),
            Or.inr (Or.inl ⟨s2, rfl, hs2, rfl⟩), Or.inl ?_⟩)
          simp [tryAttempts, h1, h2, hs, hs2]
      · refine Or.inr (Or.inr ⟨some ("Overpass API returned " ++ toString s),
          some m2, Or.inr (Or.inl ⟨s, rfl, hs, rfl⟩),
          Or.inr (Or.inr ⟨m2, rfl, rfl⟩), Or.inl ?_⟩)
        simp [tryAttempts, h1, h2, hs]
  · rcases h2 : oracle e q (k + 1) with data2 | s2 | m2
    · refine Or.inr (Or.inl ⟨some m, data2,
        Or.inr (Or.inr ⟨m, rfl, rfl⟩), rfl, ?_⟩)
      simp [tryAttempts, h1, h2]
    · by_cases hs2 : s2 = 504 ∨ s2 = 429 ∨ s2 = 503
      · refine Or.inr (Or.inr ⟨some m, some m,
          Or.inr (Or.inr ⟨m, rfl, rfl⟩), Or.inl ⟨s2, rfl, hs2, rfl⟩,
          Or.inr ?_⟩)
        simp [tryAttempts, h1, h2, hs2]
      · refine Or.inr (Or.inr ⟨some m,
          some ("Overpass API returned " ++ toString s2),
          Or.inr (Or.inr ⟨m, rfl, rfl⟩),
          Or.inr (Or.inl ⟨s2, rfl, hs2, rfl⟩), Or.inl ?_⟩)
        simp [tryAttempts, h1, h2, hs2]
    · refine Or.inr (Or.inr ⟨some m, some m2,
        Or.inr (Or.inr ⟨m, rfl, rfl⟩), Or.inr (Or.inr ⟨m2, rfl, rfl⟩),
        Or.inl ?_⟩)
      simp [tryAttempts, h1, h2]

theorem canonRequests_cons (e : Endpoint) (eps : List Endpoint) :
    canonRequests (e :: eps) =
      (e.label, 0) :: (e.label, 1) :: canonRequests eps := rfl

theorem doubled_cons (e : Endpoint) (eps : List Endpoint) :
    doubled (e :: eps) = e :: e :: doubled eps := rfl

theorem requestsOf_append (a b : List ReqEvent) :
    requestsOf (a ++ b) = requestsOf a ++ requestsOf b :=
  List.filterMap_append a b _

theorem fixedRetryDelays_nil : fixedRetryDelays [] := by
  intro i d l a h1 _ _
  simp at h1

theorem fixedRetryDelays_one (l0 : String) (a0 : Nat) :
    fixedRetryDelays [.request l0 a0] := by
  intro i d l a h1 h2 ha
  rcases i with _ | i <;> simp [List.get?] at h1

theorem fixedRetryDelays_three (l0 : String) :
    fixedRetryDelays [.request l0 0, .delay 2000, .request l0 1] := by
  intro i d l a h1 h2 ha
  rcases i with _ | _ | _ | i <;> simp [List.get?] at h1 h2 ⊢ <;> omega

theorem fixedRetryDelays_four (l0 : String) :
    fixedRetryDelays
      [.request l0 0, .delay 2000, .request l0 1, .delay 4000] := by
  intro i d l a h1 h2 ha
  rcases i with _ | _ | _ | _ | i <;> simp [List.get?] at h1 h2 ⊢ <;> omega

/-- Full characterization of the endpoint loop: the requests are a prefix
of the canonical two-attempts-per-endpoint schedule, an error means the
schedule ran to completion with every attempt failing, a success comes
from the last request, and every delay before a retry is the fixed
2000 ms backoff. -/
theorem tryEndpoints_spec (oracle : FetchOracle) (q : OverpassQuery)
    (lat lon : ℝ) (rand : Nat → ℝ) :
    ∀ (eps : List Endpoint) (k : Nat) (le : Option String),
    ∃ n : Nat,
      requestsOf (tryEndpoints oracle q lat lon rand eps k le).2 =
        (canonRequests eps).take n ∧
      n ≤ (canonRequests eps).length ∧
      (∀ msg, (tryEndpoints oracle q lat lon rand eps k le).1 = .error msg →
        n = (canonRequests eps).length) ∧
      (∀ j e2, j + 1 < n → (doubled eps).get? j = some e2 →
        failedFetch (oracle e2 q (k + j))) ∧
      (∀ msg, (tryEndpoints oracle q lat lon rand eps k le).1 = .error msg →
        ∀ j e2, j < n → (doubled eps).get? j = some e2 →
          failedFetch (oracle e2 q (k + j))) ∧
      (∀ fps, (tryEndpoints oracle q lat lon rand eps k le).1 = .ok fps →
        1 ≤ n ∧ ∃ e2 data, (doubled eps).get? (n - 1) = some e2 ∧
          oracle e2 q (k + (n - 1)) = .ok data ∧
          fps = processedFootprints lat lon rand data) ∧
      fixedRetryDelays (tryEndpoints oracle q lat lon rand eps k le).2 ∧
      (∀ ev, (tryEndpoints oracle q lat lon rand eps k le).2.head? = some ev →
        ∃ l, ev = .request l 0) := by
  intro eps
  induction eps with
  | nil =>
    intro k le
    refine ⟨0, by simp [tryEndpoints, requestsOf], by simp, ?_, ?_, ?_, ?_,
      ?_, ?_⟩
    · intro msg _; simp [canonRequests]
    · intro j e2 hj; omega
    · intro msg _ j e2 hj; omega
    · intro fps h; simp [tryEndpoints] at h
    · simpa [tryEndpoints] using fixedRetryDelays_nil
    · intro ev h; simp [tryEndpoints] at h
  | cons e rest ih =>
    intro k le
    rcases tryAttempts_cases oracle q lat lon rand e k le with
      ⟨data, h1, hA⟩ | ⟨le1, data, hf1, h2, hA⟩ | ⟨le1, le2, hf1, hf2, hA⟩
    · have hT : tryEndpoints oracle q lat lon rand (e :: rest) k le =
          (.ok (processedFootprints lat lon rand data),
            [.request e.label 0]) := by
        simp [tryEndpoints, hA]
      refine ⟨1, ?_, ?_, ?_, ?_, ?_, ?_, ?_, ?_⟩
      · rw [hT, canonRequests_cons]; simp [requestsOf]
      · rw [canonRequests_cons]; simp
      · intro msg h; rw [hT] at h; simp at h
      · intro j e2 hj; omega
      · intro msg h; rw [hT] at h; simp at h
      · intro fps h
        rw [hT] at h
        simp only [Except.ok.injEq] at h
        exact ⟨le_refl 1, e, data, by simp [doubled_cons],
          by simpa using h1, h.symm⟩
      · rw [hT]; exact fixedRetryDelays_one e.label 0
      · intro ev h; rw [hT] at h; simp at h; exact ⟨e.label, h.symm⟩
    · have hT : tryEndpoints oracle q lat lon rand (e :: rest) k le =
          (.ok (processedFootprints lat lon rand data),
            [.request e.label 0, .delay 2000, .request e.label 1]) := by
        simp [tryEndpoints, hA]
      refine ⟨2, ?_, ?_, ?_, ?_, ?_, ?_, ?_, ?_⟩
      · rw [hT, canonRequests_cons]; simp [requestsOf]
      · rw [canonRequests_cons]; simp
      · intro msg h; rw [hT] at h; simp at h
      · intro j e2 hj hd
        have hj0 : j = 0 := by omega
        subst hj0
        rw [doubled_cons] at hd
        simp at hd
        subst hd
        simpa using failStep_failed hf1
      · intro msg h; rw [hT] at h; simp at h
      · intro fps h
        rw [hT] at h
        simp only [Except.ok.injEq] at h
        refine ⟨by omega, e, data, ?_, ?_, h.symm⟩
        · simp [doubled_cons]
        · simpa using h2
      · rw [hT]; exact fixedRetryDelays_three e.label
      · intro ev h; rw [hT] at h; simp at h; exact ⟨e.label, h.symm⟩
    · obtain ⟨n', ih1, ih2, ih3, ih4, ih5, ih6, ih7, ih8⟩ := ih (k + 2) le2
      have hstep : ∀ j e2,
          (doubled (e :: rest)).get? j = some e2 → j < n' + 2 →
          failedFetch (oracle e2 q (k + j)) ∨
            (2 ≤ j ∧ (doubled rest).get? (j - 2) = some e2) := by
        intro j e2 hd hj
        rcases j with _ | _ | j
        · rw [doubled_cons] at hd; simp at hd; subst hd
          exact Or.inl (by simpa using failStep_failed hf1)
        · rw [doubled_cons] at hd; simp at hd; subst hd
          exact Or.inl (failStep_failed hf2)
        · rw [doubled_cons] at hd
          simp only [List.get?_cons_succ] at hd
          exact Or.inr ⟨by omega, by simpa using hd⟩
      rcases hA with hA | hA
      · have hT : tryEndpoints oracle q lat lon rand (e :: rest) k le =
            ((tryEndpoints oracle q lat lon rand rest (k + 2) le2).1,
             [.request e.label 0, .delay 2000, .request e.label 1] ++
               (tryEndpoints oracle q lat lon rand rest (k + 2) le2).2) := by
          simp [tryEndpoints, hA]
        refine ⟨n' + 2, ?_, ?_, ?_, ?_, ?_, ?_, ?_, ?_⟩
        · rw [hT]
          simp only [requestsOf_append, canonRequests_cons,
            List.take_succ_cons, ih1]
          simp [requestsOf]
        · rw [canonRequests_cons]; simp; omega
        · intro msg h
          rw [hT] at h
          have := ih3 msg h
          rw [canonRequests_cons]
          simp
          omega
        · intro j e2 hj hd
          rcases hstep j e2 hd (by omega) with hf | ⟨hj2, hd2⟩
          · exact hf
          · have hidx : k + j = k + 2 + (j - 2) := by omega
            rw [hidx]
            exact ih4 (j - 2) e2 (by omega) hd2
        · intro msg h j e2 hj hd
          rw [hT] at h
          rcases hstep j e2 hd (by omega) with hf | ⟨hj2, hd2⟩
          · exact hf
          · have hidx : k + j = k + 2 + (j - 2) := by omega
            rw [hidx]
            exact ih5 msg h (j - 2) e2 (by omega) hd2
        · intro fps h
          rw [hT] at h
          obtain ⟨hn1, e2, data2, hget, hok, hfps⟩ := ih6 fps h
          refine ⟨by omega, e2, data2, ?_, ?_, hfps⟩
          · have : n' + 2 - 1 = (n' - 1) + 2 := by omega
            rw [this, doubled_cons]
            simpa using hget
          · have : k + (n' + 2 - 1) = k + 2 + (n' - 1) := by omega
            rw [this]
            exact hok
        · rw [hT]
          exact fixedRetryDelays_append (fixedRetryDelays_three e.label)
            ih7 ih8
        · intro ev h; rw [hT] at h; simp at h; exact ⟨e.label, h.symm⟩
      · have hT : tryEndpoints oracle q lat lon rand (e :: rest) k le =
            ((tryEndpoints oracle q lat lon rand rest (k + 2) le2).1,
             [.request e.label 0, .delay 2000, .request e.label 1,
              .delay 4000] ++
               (tryEndpoints oracle q lat lon rand rest (k + 2) le2).2) := by
          simp [tryEndpoints, hA]
        refine ⟨n' + 2, ?_, ?_, ?_, ?_, ?_, ?_, ?_, ?_⟩
        · rw [hT]
          simp only [requestsOf_append, canonRequests_cons,
            List.take_succ_cons, ih1]
          simp [requestsOf]
        · rw [canonRequests_cons]; simp; omega
        · intro msg h
          rw [hT] at h
          have := ih3 msg h
          rw [canonRequests_cons]
          simp
          omega
        · intro j e2 hj hd
          rcases hstep j e2 hd (by omega) with hf | ⟨hj2, hd2⟩
          · exact hf
          · have hidx : k + j = k + 2 + (j - 2) := by omega
            rw [hidx]
            exact ih4 (j - 2) e2 (by omega) hd2
        · intro msg h j e2 hj hd
          rw [hT] at h
          rcases hstep j e2 hd (by omega) with hf | ⟨hj2, hd2⟩
          · exact hf
          · have hidx : k + j = k + 2 + (j - 2) := by omega
            rw [hidx]
            exact ih5 msg h (j - 2) e2 (by omega) hd2
        · intro fps h
          rw [hT] at h
          obtain ⟨hn1, e2, data2, hget, hok, hfps⟩ := ih6 fps h
          refine ⟨by omega, e2, data2, ?_, ?_, hfps⟩
          · have : n' + 2 - 1 = (n' - 1) + 2 := by omega
            rw [this, doubled_cons]
            simpa using hget
          · have : k + (n' + 2 - 1) = k + 2 + (n' - 1) := by omega
            rw [this]
            exact hok
        · rw [hT]
          exact fixedRetryDelays_append (fixedRetryDelays_four e.label)
            ih7 ih8
        · intro ev h; rw [hT] at h; simp at h; exact ⟨e.label, h.symm⟩

theorem headD_eq_head? {α : Type} (l : List α) (d : α) (h : l ≠ []) :
    l.head? = some (l.getD 0 d) := by
  cases l with
  | nil => exact absurd rfl h
  | cons a t => rfl

theorem getLastD_eq_getLast? {α : Type} (l : List α) (d : α) (h : l ≠ []) :
    l.getLast? = some (l.getLastD d) := by
  cases hL : l.getLast? with
  | none => exact absurd (List.getLast?_eq_none.mp hL) h
  | some y => rw [List.getLastD_eq_getLast?, hL]; rfl

/-- The closing logic of the footprint-building loop: the resulting point
list has at least 3 points, and its last point equals its first or is
within 0.01 m of it. -/
theorem closeRing_spec (pts : List Vec2) (h3 : 3 ≤ pts.length) :
    3 ≤ (closeRing pts).length ∧
    ∃ p q2, (closeRing pts).head? = some p ∧
      (closeRing pts).getLast? = some q2 ∧
      (q2 = p ∨ vdist p q2 ≤ 0.01) := by
  have hne : pts ≠ [] := by
    intro h
    rw [h] at h3
    simp at h3
  by_cases hd : vdist (pts.getD 0 ⟨0, 0⟩) (pts.getLastD ⟨0, 0⟩) > 0.01
  · rw [show closeRing pts = pts ++ [pts.getD 0 ⟨0, 0⟩] from if_pos hd]
    refine ⟨by simp; omega, pts.getD 0 ⟨0, 0⟩, pts.getD 0 ⟨0, 0⟩, ?_,
      List.getLast?_concat _, Or.inl rfl⟩
    cases pts with
    | nil => exact absurd rfl hne
    | cons a t => rfl
  · rw [show closeRing pts = pts from if_neg hd]
    exact ⟨h3, pts.getD 0 ⟨0, 0⟩, pts.getLastD ⟨0, 0⟩,
      headD_eq_head? pts _ hne, getLastD_eq_getLast? pts _ hne,
      Or.inr (le_of_not_lt hd)⟩

/-- Unfolding of the building branch of the element loop. -/
theorem buildFootprints_cons_build (lat lon : ℝ) (rand : Nat → ℝ)
    (el : OverpassElement) (rest : List OverpassElement) (k : Nat)
    (g : List OverpassCoordinate) (ht : el.type = "way")
    (hg : el.geometry = some g) (hlen : ¬ g.length < 3) :
    buildFootprints lat lon rand (el :: rest) k =
      ⟨closeRing (g.map (toLocalVec lat lon)),
       (computeHeightM (el.tags.getD []) rand k).1, el.tags.getD [], none⟩ ::
      buildFootprints lat lon rand rest
        (computeHeightM (el.tags.getD []) rand k).2 := by
  simp [buildFootprints, ht, hg, hlen]

theorem buildFootprints_length (lat lon : ℝ) (rand : Nat → ℝ) :
    ∀ (els : List OverpassElement) (k : Nat),
      (buildFootprints lat lon rand els k).length =
        (els.filter usableElement).length := by
  intro els
  induction els with
  | nil => intro k; simp [buildFootprints]
  | cons el rest ihl =>
    intro k
    by_cases ht : el.type = "way"
    · rcases hg : el.geometry with _ | g
      · simp [buildFootprints, ht, hg, usableElement, ihl]
      · by_cases hlen : g.length < 3
        · have h3 : ¬ 3 ≤ g.length := by omega
          simp [buildFootprints, ht, hg, hlen, usableElement, h3, ihl]
        · have h3 : 3 ≤ g.length := by omega
          simp [buildFootprints, ht, hg, hlen, usableElement, h3, ihl]
    · simp [buildFootprints, ht, usableElement, ihl]

theorem buildFootprints_mem (lat lon : ℝ) (rand : Nat → ℝ) :
    ∀ (els : List OverpassElement) (k : Nat) (fp : Footprint),
      fp ∈ buildFootprints lat lon rand els k →
      3 ≤ fp.pts.length ∧
        ∃ p q2, fp.pts.head? = some p ∧ fp.pts.getLast? = some q2 ∧
          (q2 = p ∨ vdist p q2 ≤ 0.01) := by
  intro els
  induction els with
  | nil => intro k fp h; simp [buildFootprints] at h
  | cons el rest ihl =>
    intro k fp h
    by_cases ht : el.type = "way"
    · rcases hg : el.geometry with _ | g
      · simp [buildFootprints, ht, hg] at h
        exact ihl _ _ h
      · by_cases hlen : g.length < 3
        · simp [buildFootprints, ht, hg, hlen] at h
          exact ihl _ _ h
        · rw [buildFootprints_cons_build lat lon rand el rest k g ht hg
            hlen] at h
          rcases List.mem_cons.mp h with rfl | h
          · have h3 : 3 ≤ (g.map (toLocalVec lat lon)).length := by
              simp
              omega
            exact closeRing_spec _ h3
          · exact ihl _ _ h
    · simp [buildFootprints, ht] at h
      exact ihl _ _ h

/-- C3 (amended): the query is posted to the mirrors in their fixed
order; an endpoint is retried (at most once) whenever an attempt fails
for any reason — rate-limit/timeout status, any other non-OK status, or a
thrown network/parse error; the loop falls through to the next mirror
when an endpoint's attempts fail; and an error is thrown only after every
mirror's attempts have failed. -/
theorem fetchBuildings_retry_policy (oracle : FetchOracle) (rand : Nat → ℝ)
    (lat lon sizeMeters : ℝ) :
    ∃ n, n ≤ 6 ∧
      requestsOf (fetchBuildings oracle rand lat lon sizeMeters).2 =
        ([("de", 0), ("de", 1), ("kumi", 0), ("kumi", 1), ("ru", 0),
          ("ru", 1)]).take n ∧
      (∀ j e2, j + 1 < n → (doubled OVERPASS_ENDPOINTS).get? j = some e2 →
        failedFetch (oracle e2 (overpassBBox lat lon sizeMeters) j)) ∧
      (∀ msg, (fetchBuildings oracle rand lat lon sizeMeters).1 = .error msg →
        n = 6 ∧
        ∀ j e2, j < 6 → (doubled OVERPASS_ENDPOINTS).get? j = some e2 →
          failedFetch (oracle e2 (overpassBBox lat lon sizeMeters) j)) ∧
      (∀ fps, (fetchBuildings oracle rand lat lon sizeMeters).1 = .ok fps →
        1 ≤ n ∧ ∃ e2 data,
          (doubled OVERPASS_ENDPOINTS).get? (n - 1) = some e2 ∧
          oracle e2 (overpassBBox lat lon sizeMeters) (n - 1) = .ok data ∧
          fps = processedFootprints lat lon rand data) := by
  obtain ⟨n, s1, s2, s3, s4, s5, s6, s7, s8⟩ :=
    tryEndpoints_spec oracle (overpassBBox lat lon sizeMeters) lat lon rand
      OVERPASS_ENDPOINTS 0 none
  refine ⟨n, ?_, ?_, ?_, ?_, ?_⟩
  · have h6 : (canonRequests OVERPASS_ENDPOINTS).length = 6 := rfl
    omega
  · exact s1
  · intro j e2 hj hd
    simpa using s4 j e2 hj hd
  · intro msg h
    have hn : n = 6 := s3 msg h
    refine ⟨hn, ?_⟩
    intro j e2 hj hd
    simpa using s5 msg h j e2 (by omega) hd
  · intro fps h
    obtain ⟨h1, e2, data, hget, hok, hfps⟩ := s6 fps h
    exact ⟨h1, e2, data, hget, by simpa using hok, hfps⟩

/-- An oracle standing for mirrors that always answer HTTP 400 (a
non-retryable status per the claim). -/
def oracle400 : FetchOracle := fun _ _ _ => .httpError 400

def rand0 : Nat → ℝ := fun _ => 0

/-- C3, the claim as frozen: with every mirror answering 400 — which is
neither 429, 503 nor 504 — the first endpoint is nevertheless attempted a
second time (the trace contains `("de", 1)`), because the thrown
`Overpass API returned 400` is caught by the retry loop. -/
theorem fetchBuildings_retries_on_400 :
    requestsOf (fetchBuildings oracle400 rand0 0 0 100).2 =
      [("de", 0), ("de", 1), ("kumi", 0), ("kumi", 1), ("ru", 0),
       ("ru", 1)] ∧
    oracle400 ⟨"https://overpass-api.de/api/interpreter", "de"⟩
      (overpassBBox 0 0 100) 0 = .httpError 400 ∧
    ¬((400 : Nat) = 504 ∨ (400 : Nat) = 429 ∨ (400 : Nat) = 503) := by
  refine ⟨rfl, rfl, by decide⟩

/-- C5: one `fetchBuildings` call performs at most 6 request attempts —
at most 2 per mirror endpoint — with the fixed 2000 ms delay before every
retry, and always terminates with either footprints or a thrown error. -/
theorem fetchBuildings_attempt_bound (oracle : FetchOracle) (rand : Nat → ℝ)
    (lat lon sizeMeters : ℝ) :
    (requestsOf (fetchBuildings oracle rand lat lon sizeMeters).2).length ≤ 6 ∧
    (∀ l, ((requestsOf (fetchBuildings oracle rand lat lon sizeMeters).2).filter
        (fun p => p.1 == l)).length ≤ 2) ∧
    ((∃ fps, (fetchBuildings oracle rand lat lon sizeMeters).1 = .ok fps) ∨
     (∃ msg, (fetchBuildings oracle rand lat lon sizeMeters).1 = .error msg)) ∧
    fixedRetryDelays (fetchBuildings oracle rand lat lon sizeMeters).2 := by
  obtain ⟨n, s1, s2, s3, s4, s5, s6, s7, s8⟩ :=
    tryEndpoints_spec oracle (overpassBBox lat lon sizeMeters) lat lon rand
      OVERPASS_ENDPOINTS 0 none
  refine ⟨?_, ?_, ?_, s7⟩
  · rw [show requestsOf (fetchBuildings oracle rand lat lon sizeMeters).2 =
      (canonRequests OVERPASS_ENDPOINTS).take n from s1]
    have h6 : (canonRequests OVERPASS_ENDPOINTS).length = 6 := rfl
    simp [List.length_take]
    omega
  · intro l
    rw [show requestsOf (fetchBuildings oracle rand lat lon sizeMeters).2 =
      (canonRequests OVERPASS_ENDPOINTS).take n from s1]
    have hsub := ((List.take_sublist n (canonRequests OVERPASS_ENDPOINTS)).filter
      (fun p => p.1 == l)).length_le
    refine le_trans hsub ?_
    by_cases h1 : l = "de"
    · subst h1; decide
    · by_cases h2 : l = "kumi"
      · subst h2; decide
      · by_cases h3 : l = "ru"
        · subst h3; decide
        · have hfil : (canonRequests OVERPASS_ENDPOINTS).filter
              (fun p => p.1 == l) = [] := by
            rw [List.filter_eq_nil]
            intro p hp
            have : canonRequests OVERPASS_ENDPOINTS =
              [("de", 0), ("de", 1), ("kumi", 0), ("kumi", 1), ("ru", 0),
               ("ru", 1)] := rfl
            rw [this] at hp
            fin_cases hp <;> simp <;> rintro rfl <;> simp_all
          rw [hfil]
          simp
  · rcases hres : (fetchBuildings oracle rand lat lon sizeMeters).1 with
      msg | fps
    · exact Or.inr ⟨msg, rfl⟩
    · exact Or.inl ⟨fps, rfl⟩

/-- C4 (amended): every footprint constructed by `fetchBuildings` has at
least 3 points (not necessarily distinct), and its last point either
equals its first — a closing copy is appended whenever the endpoints are
more than 0.01 m apart — or lies within 0.01 m of it; source elements
that are not ways with at least 3 geometry points are skipped. -/
theorem fetchBuildings_polygon_invariant :
    (∀ (oracle : FetchOracle) (rand : Nat → ℝ) (lat lon sizeMeters : ℝ)
      (fps : List Footprint),
      (fetchBuildings oracle rand lat lon sizeMeters).1 = .ok fps →
      ∀ fp ∈ fps, 3 ≤ fp.pts.length ∧
        ∃ p q2, fp.pts.head? = some p ∧ fp.pts.getLast? = some q2 ∧
          (q2 = p ∨ vdist p q2 ≤ 0.01)) ∧
    (∀ (lat lon : ℝ) (rand : Nat → ℝ) (resp : OverpassResponse),
      (processedFootprints lat lon rand resp).length =
        ((resp.elements.getD []).filter usableElement).length) := by
  constructor
  · intro oracle rand lat lon sizeMeters fps hok fp hmem
    obtain ⟨n, s1, s2, s3, s4, s5, s6, s7, s8⟩ :=
      tryEndpoints_spec oracle (overpassBBox lat lon sizeMeters) lat lon rand
        OVERPASS_ENDPOINTS 0 none
    obtain ⟨_, e2, data, _, _, hfps⟩ := s6 fps hok
    subst hfps
    exact buildFootprints_mem lat lon rand _ 0 fp hmem
  · intro lat lon rand resp
    exact buildFootprints_length lat lon rand _ 0

theorem mpdLon_zero : metersPerDegreeLon 0 = 111320 := by
  unfold metersPerDegreeLon DEG2RAD
  rw [zero_mul, Real.cos_zero, mul_one]

/-- An Overpass response with a single way of 3 points whose endpoints
are 0.005 m apart: more than zero but not more than the 0.01 m closing
threshold. -/
noncomputable def cexWayResponse : OverpassResponse :=
  ⟨some [⟨"way",
    some [⟨0, 0⟩, ⟨0, 10 / 111320⟩, ⟨0, 1 / 200 / 111320⟩], some []⟩]⟩

noncomputable def cexOracle : FetchOracle := fun _ _ _ => .ok cexWayResponse

/-- The footprint `fetchBuildings` builds from `cexWayResponse`. -/
noncomputable def cexFootprint : Footprint :=
  ⟨[⟨0, 0⟩, ⟨10, 0⟩, ⟨1 / 200, 0⟩], 12, [], none⟩

/-- C4, the claim as frozen: the fetched footprint below has 3 points but
its last point does not equal its first (the endpoints are 0.005 m apart,
so no closing copy is appended), refuting the closed-polygon invariant
`last = first`. -/
theorem fetchBuildings_unclosed_polygon :
    (fetchBuildings cexOracle rand0 0 0 100).1 = .ok [cexFootprint] ∧
    cexFootprint.pts.head? = some ⟨0, 0⟩ ∧
    cexFootprint.pts.getLast? = some ⟨1 / 200, 0⟩ ∧
    ((⟨1 / 200, 0⟩ : Vec2) ≠ (⟨0, 0⟩ : Vec2)) := by
  have hmap : ([⟨0, 0⟩, ⟨0, 10 / 111320⟩,
      ⟨0, 1 / 200 / 111320⟩] : List OverpassCoordinate).map
        (toLocalVec 0 0) = [⟨0, 0⟩, ⟨10, 0⟩, ⟨1 / 200, 0⟩] := by
    simp only [List.map_cons, List.map_nil, toLocalVec, llToLocalMeters,
      mpdLon_zero, metersPerDegreeLat]
    norm_num
  have hclose : closeRing ([⟨0, 0⟩, ⟨10, 0⟩, ⟨1 / 200, 0⟩] : List Vec2) =
      [⟨0, 0⟩, ⟨10, 0⟩, ⟨1 / 200, 0⟩] := by
    unfold closeRing
    rw [if_neg]
    rw [show ([⟨0, 0⟩, ⟨10, 0⟩, ⟨1 / 200, 0⟩] : List Vec2).getD 0 ⟨0, 0⟩ =
        ⟨0, 0⟩ from rfl,
      show ([⟨0, 0⟩, ⟨10, 0⟩, ⟨1 / 200, 0⟩] : List Vec2).getLastD ⟨0, 0⟩ =
        ⟨1 / 200, 0⟩ from rfl]
    unfold vdist
    have h0 : ((⟨0, 0⟩ : Vec2).y - (⟨1 / 200, 0⟩ : Vec2).y) = 0 := by
      norm_num
    rw [h0, hypot_x_zero]
    have habs : |((⟨0, 0⟩ : Vec2).x - (⟨1 / 200, 0⟩ : Vec2).x)| =
        1 / 200 := by
      rw [show ((⟨0, 0⟩ : Vec2).x - (⟨1 / 200, 0⟩ : Vec2).x) =
        -(1 / 200) by norm_num, abs_neg,
        abs_of_nonneg (by norm_num : (0 : ℝ) ≤ 1 / 200)]
    rw [habs]
    norm_num
  have hheight : computeHeightM [] rand0 0 = (12, 1) := by
    have h0 : computeHeightM [] rand0 0 = (12 + rand0 0 * 18, 0 + 1) := rfl
    rw [h0]
    simp [Prod.ext_iff, rand0]
  have hproc : processedFootprints 0 0 rand0 cexWayResponse =
      [cexFootprint] := by
    show buildFootprints 0 0 rand0
      [⟨"way", some [⟨0, 0⟩, ⟨0, 10 / 111320⟩, ⟨0, 1 / 200 / 111320⟩],
        some []⟩] 0 = [cexFootprint]
    rw [buildFootprints_cons_build 0 0 rand0 _ [] 0
      [⟨0, 0⟩, ⟨0, 10 / 111320⟩, ⟨0, 1 / 200 / 111320⟩] rfl rfl
      (by norm_num)]
    rw [show ((⟨"way",
        some [⟨0, 0⟩, ⟨0, 10 / 111320⟩, ⟨0, 1 / 200 / 111320⟩],
        some []⟩ : OverpassElement).tags.getD []) = [] from rfl]
    rw [hmap, hclose, hheight]
    rfl
  have hfetch : (fetchBuildings cexOracle rand0 0 0 100).1 =
      .ok (processedFootprints 0 0 rand0 cexWayResponse) := by
    simp [fetchBuildings, tryEndpoints, tryAttempts, cexOracle,
      OVERPASS_ENDPOINTS]
  refine ⟨by rw [hfetch, hproc], rfl, rfl, ?_⟩
  intro h
  rw [Vec2.mk.injEq] at h
  have := h.1
  norm_num at this

/-! ## Geocoding utilities (src/unnamed/part_001, lines 874-941).
Decimal literals are parsed exactly into `ℚ`; the Nominatim service and
the `open-location-code` library are oracle parameters. -/

structure LatLon where
  lat : ℚ
  lon : ℚ
deriving DecidableEq

/-- One signed decimal group of `LATLON_RE`: `-?\d+(?:\.\d+)?`. -/
def parseSignedDec (cs : List Char) : Option (ℚ × List Char) :=
  let (sign, cs1) : ℚ × List Char :=
    match cs with
    | '-' :: r => (-1, r)
    | _ => (1, cs)
  let ip := cs1.takeWhile Char.isDigit
  let cs2 := cs1.dropWhile Char.isDigit
  if ip.isEmpty then none
  else
    match cs2 with
    | '.' :: r =>
      let fp := r.takeWhile Char.isDigit
      if fp.isEmpty then some (sign * (digitsToNat ip : ℚ), cs2)
      else
        some (sign * ((digitsToNat ip : ℚ) +
          (digitsToNat fp : ℚ) / ((10 : ℚ) ^ fp.length)), r.dropWhile Char.isDigit)
    | _ => some (sign * (digitsToNat ip : ℚ), cs2)

/-- `input.match(LATLON_RE)` with
`LATLON_RE = /^\s*(-?\d+(?:\.\d+)?)\s*,\s*(-?\d+(?:\.\d+)?)\s*$/`,
followed by `parseFloat` of the two groups. -/
def parseLatLon (s : String) : Option (ℚ × ℚ) :=
  match parseSignedDec (s.data.dropWhile Char.isWhitespace) with
  | none => none
  | some (a, r1) =>
    match r1.dropWhile Char.isWhitespace with
    | ',' :: r2 =>
      match parseSignedDec (r2.dropWhile Char.isWhitespace) with
      | none => none
      | some (b, r3) =>
        if (r3.dropWhile Char.isWhitespace).isEmpty then some (a, b) else none
    | _ => none

/-- Character class `[2-9CFGHJMPQRVWX+]` (applied after `toUpperCase`). -/
def plusAllowed (c : Char) : Bool :=
  ('2' ≤ c && c ≤ '9') || c = '+' ||
    ['C', 'F', 'G', 'H', 'J', 'M', 'P', 'Q', 'R', 'V', 'W', 'X'].contains c

/-- `extractPlusCode` (lines 876-885). -/
def extractPlusCode (s : String) : Option String :=
  let tokens := splitWsAux s.data []
  match tokens.find? (fun t => t.contains '+') with
  | none => none
  | some token =>
    let cleaned := (token.map Char.toUpper).filter plusAllowed
    if !cleaned.contains '+' then none
    else
      let a := cleaned.takeWhile (fun c => c ≠ '+')
      let b := ((cleaned.dropWhile (fun c => c ≠ '+')).drop 1).takeWhile
        (fun c => c ≠ '+')
      if 2 ≤ a.length ∧ 2 ≤ b.length then some ⟨a ++ '+' :: b⟩ else none

structure CodeArea where
  latitudeCenter : ℚ
  longitudeCenter : ℚ

/-- The `open-location-code` library functions (external dependency,
modelled as total oracle functions). -/
structure OpenLocationCodeLib where
  recoverNearest : String → ℚ → ℚ → String
  decode : String → CodeArea
  isValid : String → Bool

/-- `decodePlusCode` (lines 897-911). -/
def decodePlusCode (olc : OpenLocationCodeLib) (code : String)
    (refLat refLon : ℚ) : Except String LatLon :=
  if code.length ≤ 8 ∨
      (code.data.contains '+' ∧
        (code.data.takeWhile (fun c => c ≠ '+')).length ≤ 4) then
    let d := olc.decode (olc.recoverNearest code refLat refLon)
    .ok ⟨d.latitudeCenter, d.longitudeCenter⟩
  else if ¬ olc.isValid code then .error ("Invalid Plus Code: " ++ code)
  else
    let d := olc.decode code
    .ok ⟨d.latitudeCenter, d.longitudeCenter⟩

/-- JS `String.prototype.replace` with a string pattern: first occurrence
only. -/
def replaceFirstAux (pat rep : List Char) : List Char → List Char
  | [] => if pat.isEmpty then rep else []
  | c :: t =>
    if pat.isPrefixOf (c :: t) then rep ++ (c :: t).drop pat.length
    else c :: replaceFirstAux pat rep t

def replaceFirst (s pat rep : String) : String :=
  ⟨replaceFirstAux pat.data rep.data s.data⟩

/-- `geocodeNominatim`, modelled as an oracle: a thrown error (HTTP error
or empty result list) is `Except.error`. -/
abbrev Geocoder := String → Except String LatLon

/-- `resolveLocationString` (lines 913-941). -/
def resolveLocationString (olc : OpenLocationCodeLib) (geocode : Geocoder)
    (input : String) (fallbackLat fallbackLon : ℚ) : Except String LatLon :=
  if jsTrim input = "" then .error "Empty location query"
  else
    match parseLatLon input with
    | some (la, lo) => .ok ⟨la, lo⟩
    | none =>
      match extractPlusCode input with
      | some code =>
        let locality := jsTrim (replaceFirst input code "")
        let ref : LatLon :=
          if locality.length > 0 then
            match geocode locality with
            | .ok r => r
            | .error _ => ⟨fallbackLat, fallbackLon⟩
          else ⟨fallbackLat, fallbackLon⟩
        decodePlusCode olc code ref.lat ref.lon
      | none => geocode input

/-! ## App component state and the locate/render handlers
(src/unnamed/part_001, lines 1138-1212).  The React state is a record;
each handler maps the state before the click to the state after the
async handler has completed.  The outcomes of the awaited calls are
oracle parameters, and `Number.prototype.toFixed(6)` is an unmodelled
formatting parameter `fmt`. -/

structure AppState where
  locQuery : String
  lat : ℚ
  lon : ℚ
  size : ℝ
  footprints : List Footprint
  loading : Bool
  error : Option String
  renderKey : Nat

/-- `handleLocate` (lines 1166-1183). -/
def handleLocate (resolveOutcome : Except String LatLon) (fmt : ℚ → String)
    (s : AppState) : AppState :=
  match resolveOutcome with
  | .ok r =>
    { s with
      lat := r.lat
      lon := r.lon
      locQuery := fmt r.lat ++ ", " ++ fmt r.lon
      error := none
      loading := false }
  | .error msg =>
    { s with
      error := some (if msg = "" then "Failed to geocode location." else msg)
      loading := false }

/-- `handleRender` (lines 1185-1212). -/
noncomputable def handleRender (resolveOutcome : Except String LatLon)
    (fetchOutcome : Except String (List Footprint)) (s : AppState) : AppState :=
  match resolveOutcome with
  | .error msg =>
    { s with
      error := some (if msg = "" then "Failed to fetch building data." else msg)
      loading := false }
  | .ok r =>
    match fetchOutcome with
    | .error msg =>
      { s with
        lat := r.lat
        lon := r.lon
        error := some (if msg = "" then "Failed to fetch building data." else msg)
        loading := false }
    | .ok fetched =>
      { s with
        lat := r.lat
        lon := r.lon
        footprints := prepareFootprints fetched (s.size * 0.4)
        renderKey := s.renderKey + 1
        error := none
        loading := false }

/-! ## LLM proxy route (src/unnamed/part_005) and the `useAI` hook
(src/src/react-app/hooks/useAI.ts).  The two chat-completion calls are
oracles mapping the user message content to either a thrown error or the
(nullable) message content of the reply. -/

structure BuildingInfo where
  lat : ℚ
  lon : ℚ
  building_type : String
  name : Option String
  addr_street : Option String
  addr_housenumber : Option String
  addr_city : Option String
  height : Option ℚ
  levels : Option ℚ
  tags : List (String × String)

/-- `capitalizeWords` (part_005, lines 142-146). -/
def capitalizeWords (s : String) : String :=
  String.intercalate " " ((s.splitOn "_").map String.capitalize)

/-- JS truthiness of an optional number (`0` and `undefined` are falsy). -/
def truthyNum : Option ℚ → Bool
  | none => false
  | some q => q ≠ 0

/-- `createBuildingContext` (part_005, lines 112-140).  Number-to-string
formatting of the height/levels values is idealised as `toString` on `ℚ`;
it only affects the prompt handed to the chat oracle. -/
def createBuildingContext (building : BuildingInfo) : String :=
  let parts := ["Building type: " ++ building.building_type]
  let parts := parts ++
    (match building.name with
     | some n => if n ≠ "" then ["Name: " ++ n] else []
     | none => [])
  let parts := parts ++
    (if truthy building.addr_street then
      ["Address: " ++ String.intercalate " "
        (([building.addr_housenumber, building.addr_street,
           building.addr_city].filterMap id).filter (fun v => v ≠ ""))]
     else [])
  let parts := parts ++
    (if truthyNum building.height then
      ["Height: " ++ toString ((building.height).getD 0) ++ "m"]
     else if truthyNum building.levels then
      ["Levels: " ++ toString ((building.levels).getD 0)]
     else [])
  let interestingTags := ["amenity", "shop", "cuisine", "denomination",
    "operator", "brand", "historic"]
  let parts := parts ++ interestingTags.filterMap (fun tag =>
    match tagsLookup building.tags tag with
    | some v => if v ≠ "" then some (capitalizeWords tag ++ ": " ++ v) else none
    | none => none)
  String.intercalate ". " parts ++ "."

structure RouteBody where
  error : Option String
  name : Option String
  description : Option String
  original_tags : Option (List (String × String))
deriving DecidableEq

structure RouteResponse where
  status : Nat
  body : RouteBody
deriving DecidableEq

/-- The catch-all error response of the `/building-info` route
(part_005, lines 102-109). -/
def errorRouteResponse : RouteResponse :=
  ⟨500,
   ⟨some "Failed to generate building information",
    some "Unknown Building",
    some "A unique structure in the urban environment, contributing to the city's architectural diversity.",
    none⟩⟩

/-- An LLM chat-completion call: user message content to thrown error or
nullable reply content. -/
abbrev ChatOracle := String → Except String (Option String)

/-- The `app.post("/building-info")` handler (part_005, lines 39-110). -/
def buildingInfoHandler (envKey : Option String) (headerKey : Option String)
    (chatDesc chatName : ChatOracle) (building : BuildingInfo) : RouteResponse :=
  let hk := headerKey.map jsTrim
  let apiKey : Option String :=
    match hk with
    | some h => if h = "" then envKey else some h
    | none => envKey
  if ¬ truthy apiKey then
    ⟨500, ⟨some "OpenAI API key not configured", none, none, none⟩⟩
  else
    let buildingContext := createBuildingContext building
    match chatDesc buildingContext with
    | .error _ => errorRouteResponse
    | .ok c1 =>
      let description :=
        match c1 with
        | some t => if t = "" then "A building in the urban landscape." else t
        | none => "A building in the urban landscape."
      let nameMsg := "Building type: " ++ building.building_type ++ ". " ++
        (match building.name with
         | some n => if n ≠ "" then "Existing name: " ++ n else "No existing name."
         | none => "No existing name.") ++
        " Location context: " ++ buildingContext
      match chatName nameMsg with
      | .error _ => errorRouteResponse
      | .ok c2 =>
        let fallbackName :=
          match building.name with
          | some n => if n ≠ "" then n else capitalizeWords building.building_type
          | none => capitalizeWords building.building_type
        let generatedName :=
          match c2.map jsTrim with
          | some t => if t ≠ "" then t else fallbackName
          | none => fallbackName
        ⟨200, ⟨none, some generatedName, some description, some building.tags⟩⟩

/-- `generateBuildingInfo` of the `useAI` hook, applied to the proxy's
response: returns the parsed body, or `none` plus the surfaced error
message when the response is not OK (the hook throws and catches). -/
def generateBuildingInfo (resp : RouteResponse) :
    Option RouteBody × Option String :=
  if 200 ≤ resp.status ∧ resp.status ≤ 299 then (some resp.body, none)
  else
    let msg :=
      match resp.body.error with
      | some e => if e = "" then "Failed to generate building information" else e
      | none => "Failed to generate building information"
    (none, some msg)

/-! ## API key storage (src/src/react-app/context/ApiKeysProvider.tsx).
`localStorage` is a partial map from keys to stored blobs.  A stored blob
is either the JSON serialization of a (partial) `ApiKeys` object — since
`JSON.parse ∘ JSON.stringify` is the identity on flat string records, a
valid blob is modelled by its parsed value — or unparsable junk. -/

structure ApiKeys where
  openai : String
  gemini : String
  huggingface : String
  ollama : String
deriving DecidableEq

structure PartialApiKeys where
  openai : Option String
  gemini : Option String
  huggingface : Option String
  ollama : Option String
deriving DecidableEq

inductive StoredBlob where
  | json (v : PartialApiKeys)
  | junk
deriving DecidableEq

abbrev BrowserStorage := String → Option StoredBlob

def STORAGE_KEY : String := "cityblocks:apiKeys"

/-- `JSON.stringify` of a complete `ApiKeys` record. -/
def completePartial (k : ApiKeys) : PartialApiKeys :=
  ⟨some k.openai, some k.gemini, some k.huggingface, some k.ollama⟩

/-- The spread merge `{ ...defaultKeys, ...parsed }`. -/
def mergeKeys (d : ApiKeys) (p : PartialApiKeys) : ApiKeys :=
  ⟨p.openai.getD d.openai, p.gemini.getD d.gemini,
   p.huggingface.getD d.huggingface, p.ollama.getD d.ollama⟩

/-- `readFromStorage` (ApiKeysProvider.tsx, lines 19-29).  The module
constant `defaultKeys = getEnvApiKeys()` comes from a file that is not in
the source tree, so the default record is a parameter. -/
def readFromStorage (defaultKeys : ApiKeys) (storage : BrowserStorage) :
    ApiKeys :=
  match storage STORAGE_KEY with
  | none => defaultKeys
  | some .junk => defaultKeys
  | some (.json p) => mergeKeys defaultKeys p

/-- `writeToStorage` (ApiKeysProvider.tsx, lines 31-38). -/
def writeToStorage (value : ApiKeys) (storage : BrowserStorage) :
    BrowserStorage :=
  fun key =>
    if key = STORAGE_KEY then some (.json (completePartial value))
    else storage key

/-! ## Object store model for the preparation/render frame property.
JavaScript `Footprint` objects are mutable heap objects; the store is the
list of allocated objects, an object reference is an index.
`prepareFootprints` only ever builds new objects (`{ ...fp, ... }` and
fresh `THREE.Vector2`s); allocations append to the store. -/

structure FootprintStore where
  cells : List Footprint

def storeValues (st : FootprintStore) (ids : List Nat) : List Footprint :=
  ids.map (fun a => (st.cells.get? a).getD defaultFootprint)

/-- `prepareFootprints` at the store level: reads the input objects,
allocates the prepared objects, returns the new references. -/
noncomputable def prepareFootprintsAlloc (st : FootprintStore)
    (ids : List Nat) (platformSize : ℝ) : FootprintStore × List Nat :=
  let out := prepareFootprints (storeValues st ids) platformSize
  (⟨st.cells ++ out⟩, (List.range out.length).map (fun i => st.cells.length + i))

structure BuildingControlState where
  footprintScale : ℝ
  heightScale : ℝ
  rotation : ℝ
  verticalOffset : ℝ

structure TargetBuilding where
  position : ℝ × ℝ × ℝ
  height : ℝ
  tags : List (String × String)

/-- `Boolean(fp.metadata?.hero)`. -/
def isHeroFp (fp : Footprint) : Bool :=
  match fp.metadata with
  | some m => m.hero.getD false
  | none => false

/-- `targetBuildingData` as computed by the `Buildings` effect
(src/unnamed/part_001, lines 707-750): the last hero footprint wins. -/
noncomputable def renderTargetData (footprints : List Footprint)
    (controls : BuildingControlState) : Option TargetBuilding :=
  footprints.foldl (fun acc fp =>
    if isHeroFp fp then
      some ⟨(0, fp.height * controls.heightScale + 10 + controls.verticalOffset, 0),
        fp.height, fp.tags⟩
    else acc) none

/-- The render pass at the store level: a pure read. -/
noncomputable def buildingsRenderRead (st : FootprintStore) (ids : List Nat)
    (controls : BuildingControlState) : FootprintStore × Option TargetBuilding :=
  (st, renderTargetData (storeValues st ids) controls)

/-! ## Theorems -/

/-- A concrete building payload used for instantiating the flow. -/
def cexBuilding : BuildingInfo :=
  ⟨0, 0, "office", none, none, none, none, none, none, []⟩

/-- C7: every failure of the awaited calls in `handleLocate` and
`handleRender` is caught and surfaced as a user-visible error message:
the handler sets the error string, resets the loading flag, and leaves
the rest of the state — in particular the rendered `footprints` and
`renderKey` — unchanged. -/
theorem handlers_surface_errors (msg msg2 : String) (r : LatLon)
    (fo : Except String (List Footprint)) (fmt : ℚ → String) (s : AppState) :
    (handleLocate (.error msg) fmt s =
      { s with
        error := some (if msg = "" then "Failed to geocode location." else msg)
        loading := false }) ∧
    (handleRender (.error msg) fo s =
      { s with
        error := some (if msg = "" then "Failed to fetch building data." else msg)
        loading := false }) ∧
    ((handleRender (.ok r) (.error msg2) s).footprints = s.footprints ∧
     (handleRender (.ok r) (.error msg2) s).renderKey = s.renderKey ∧
     (handleRender (.ok r) (.error msg2) s).locQuery = s.locQuery ∧
     (handleRender (.ok r) (.error msg2) s).size = s.size ∧
     (handleRender (.ok r) (.error msg2) s).error =
       some (if msg2 = "" then "Failed to fetch building data." else msg2) ∧
     (handleRender (.ok r) (.error msg2) s).loading = false) := by
  refine ⟨rfl, rfl, rfl, rfl, rfl, rfl, rfl, rfl⟩

/-- C9: the API keys are persisted as a single blob under the fixed key
`"cityblocks:apiKeys"`; reading after writing a complete record recovers
it, missing or unparsable stored data yields the defaults, and a write
touches no other storage key. -/
theorem apiKeys_storage_roundtrip (d k : ApiKeys) (σ : BrowserStorage) :
    readFromStorage d (writeToStorage k σ) = k ∧
    (∀ σ2 : BrowserStorage, σ2 STORAGE_KEY = none → readFromStorage d σ2 = d) ∧
    (∀ σ2 : BrowserStorage, σ2 STORAGE_KEY = some .junk →
      readFromStorage d σ2 = d) ∧
    (∀ key, key ≠ STORAGE_KEY → writeToStorage k σ key = σ key) := by
  refine ⟨?_, ?_, ?_, ?_⟩
  · simp [readFromStorage, writeToStorage, mergeKeys, completePartial]
  · intro σ2 h; simp [readFromStorage, h]
  · intro σ2 h; simp [readFromStorage, h]
  · intro key h; simp [writeToStorage, h]

/-- C8 (amended): when an LLM chat call throws, the proxy route answers
with status 500 carrying the placeholder name `"Unknown Building"` and the
generic placeholder description, and the `useAI` hook then surfaces the
error and hands `null` to its caller; the description fallback
`"A building in the urban landscape."` for a missing message content is
delivered in a 200 response, and only that one reaches the caller. -/
theorem buildingInfo_placeholders (key e : String) (cn : ChatOracle)
    (c2 : Option String) (b : BuildingInfo) (hkey : key ≠ "") :
    (buildingInfoHandler (some key) none (fun _ => .error e) cn b =
      errorRouteResponse) ∧
    errorRouteResponse.status = 500 ∧
    errorRouteResponse.body.name = some "Unknown Building" ∧
    errorRouteResponse.body.description =
      some "A unique structure in the urban environment, contributing to the city's architectural diversity." ∧
    generateBuildingInfo errorRouteResponse =
      (none, some "Failed to generate building information") ∧
    ((buildingInfoHandler (some key) none (fun _ => .ok none)
        (fun _ => .ok c2) b).status = 200) ∧
    ((buildingInfoHandler (some key) none (fun _ => .ok none)
        (fun _ => .ok c2) b).body.description =
      some "A building in the urban landscape.") ∧
    ((generateBuildingInfo (buildingInfoHandler (some key) none
        (fun _ => .ok none) (fun _ => .ok c2) b)).1 =
      some (buildingInfoHandler (some key) none (fun _ => .ok none)
        (fun _ => .ok c2) b).body) := by
  refine ⟨?_, rfl, rfl, rfl, rfl, ?_, ?_, ?_⟩
  · simp [buildingInfoHandler, truthy, hkey]
  · simp [buildingInfoHandler, truthy, hkey]
  · simp [buildingInfoHandler, truthy, hkey]
  · simp [buildingInfoHandler, truthy, hkey, generateBuildingInfo]

theorem buildingInfo_placeholders_witness :
    (buildingInfoHandler (some "k") none (fun _ => .error "boom")
      (fun _ => .ok (some "X")) cexBuilding = errorRouteResponse) ∧
    errorRouteResponse.status = 500 ∧
    errorRouteResponse.body.name = some "Unknown Building" ∧
    errorRouteResponse.body.description =
      some "A unique structure in the urban environment, contributing to the city's architectural diversity." ∧
    generateBuildingInfo errorRouteResponse =
      (none, some "Failed to generate building information") ∧
    ((buildingInfoHandler (some "k") none (fun _ => .ok none)
        (fun _ => .ok (some "N")) cexBuilding).status = 200) ∧
    ((buildingInfoHandler (some "k") none (fun _ => .ok none)
        (fun _ => .ok (some "N")) cexBuilding).body.description =
      some "A building in the urban landscape.") ∧
    ((generateBuildingInfo (buildingInfoHandler (some "k") none
        (fun _ => .ok none) (fun _ => .ok (some "N")) cexBuilding)).1 =
      some (buildingInfoHandler (some "k") none (fun _ => .ok none)
        (fun _ => .ok (some "N")) cexBuilding).body) :=
  buildingInfo_placeholders "k" "boom" (fun _ => .ok (some "X")) (some "N")
    cexBuilding (by decide)

/-- C8, the claim as frozen: the proxy's 500 error response does carry the
placeholder, but the caller of `generateBuildingInfo` receives `null`
(`none`), not the placeholder text. -/
theorem buildingInfo_caller_gets_null :
    (generateBuildingInfo (buildingInfoHandler (some "k") none
      (fun _ => .error "boom") (fun _ => .ok (some "X")) cexBuilding)).1 =
      none ∧
    (buildingInfoHandler (some "k") none (fun _ => .error "boom")
      (fun _ => .ok (some "X")) cexBuilding).body.description =
      some "A unique structure in the urban environment, contributing to the city's architectural diversity." :=
  ⟨rfl, rfl⟩

/-- A non-empty string has positive length. -/
theorem strLengthPos (s : String) (h : s ≠ "") : 0 < s.length := by
  cases s with
  | mk data =>
    cases data with
    | nil => exact absurd rfl h
    | cons c t => simp [String.length]

/-- The reference point used by the Plus-Code strategy: the geocoded
remaining text when present and geocoding succeeds, else the supplied
fallback coordinates. -/
def refPoint (geocode : Geocoder) (input code : String)
    (fallbackLat fallbackLon : ℚ) : LatLon :=
  let locality := jsTrim (replaceFirst input code "")
  if locality.length > 0 then
    match geocode locality with
    | .ok r => r
    | .error _ => ⟨fallbackLat, fallbackLon⟩
  else ⟨fallbackLat, fallbackLon⟩

/-- C2 (amended): for every input whose trimmed form is non-empty,
`resolveLocationString` tries exactly three strategies in order — literal
`lat, lon` pair, Plus-Code decoding with the geocoded remaining text (or
the fallback coordinates) as reference, and full-text geocoding of the
whole input; a blank input raises an error without trying any strategy. -/
theorem resolveLocationString_strategies (olc : OpenLocationCodeLib)
    (geocode : Geocoder) (input : String) (flat flon : ℚ)
    (h : jsTrim input ≠ "") :
    (∀ la lo, parseLatLon input = some (la, lo) →
      resolveLocationString olc geocode input flat flon = .ok ⟨la, lo⟩) ∧
    (∀ code, parseLatLon input = none → extractPlusCode input = some code →
      resolveLocationString olc geocode input flat flon =
        decodePlusCode olc code (refPoint geocode input code flat flon).lat
          (refPoint geocode input code flat flon).lon) ∧
    (∀ code r, jsTrim (replaceFirst input code "") ≠ "" →
      geocode (jsTrim (replaceFirst input code "")) = .ok r →
      refPoint geocode input code flat flon = r) ∧
    (∀ code em, jsTrim (replaceFirst input code "") ≠ "" →
      geocode (jsTrim (replaceFirst input code "")) = .error em →
      refPoint geocode input code flat flon = ⟨flat, flon⟩) ∧
    (∀ code, jsTrim (replaceFirst input code "") = "" →
      refPoint geocode input code flat flon = ⟨flat, flon⟩) ∧
    (parseLatLon input = none → extractPlusCode input = none →
      resolveLocationString olc geocode input flat flon = geocode input) := by
  refine ⟨?_, ?_, ?_, ?_, ?_, ?_⟩
  · intro la lo hp
    simp [resolveLocationString, h, hp]
  · intro code hp hc
    simp [resolveLocationString, h, hp, hc, refPoint]
  · intro code r hl hg
    have hl' : (jsTrim (replaceFirst input code "")).length > 0 :=
      strLengthPos _ hl
    simp [refPoint, hl', hg]
  · intro code em hl hg
    have hl' : (jsTrim (replaceFirst input code "")).length > 0 :=
      strLengthPos _ hl
    simp [refPoint, hl', hg]
  · intro code hl
    have hl' : ¬ (jsTrim (replaceFirst input code "")).length > 0 := by
      simp [hl]
    simp [refPoint, hl']
  · intro hp hc
    simp [resolveLocationString, h, hp, hc]

/-- A trivial concrete Plus-Code library for instantiating the resolver. -/
def olcW : OpenLocationCodeLib :=
  ⟨fun c _ _ => c, fun _ => ⟨0, 0⟩, fun _ => true⟩

/-- A geocoder oracle that always fails. -/
def gFail : Geocoder := fun _ => .error "no network"

theorem resolveLocationString_strategies_witness :
    (∀ la lo, parseLatLon "52.5, 13.4" = some (la, lo) →
      resolveLocationString olcW gFail "52.5, 13.4" 0 0 = .ok ⟨la, lo⟩) ∧
    (∀ code, parseLatLon "52.5, 13.4" = none →
      extractPlusCode "52.5, 13.4" = some code →
      resolveLocationString olcW gFail "52.5, 13.4" 0 0 =
        decodePlusCode olcW code
          (refPoint gFail "52.5, 13.4" code 0 0).lat
          (refPoint gFail "52.5, 13.4" code 0 0).lon) ∧
    (∀ code r, jsTrim (replaceFirst "52.5, 13.4" code "") ≠ "" →
      gFail (jsTrim (replaceFirst "52.5, 13.4" code "")) = .ok r →
      refPoint gFail "52.5, 13.4" code 0 0 = r) ∧
    (∀ code em, jsTrim (replaceFirst "52.5, 13.4" code "") ≠ "" →
      gFail (jsTrim (replaceFirst "52.5, 13.4" code "")) = .error em →
      refPoint gFail "52.5, 13.4" code 0 0 = ⟨0, 0⟩) ∧
    (∀ code, jsTrim (replaceFirst "52.5, 13.4" code "") = "" →
      refPoint gFail "52.5, 13.4" code 0 0 = ⟨0, 0⟩) ∧
    (parseLatLon "52.5, 13.4" = none → extractPlusCode "52.5, 13.4" = none →
      resolveLocationString olcW gFail "52.5, 13.4" 0 0 =
        gFail "52.5, 13.4") :=
  resolveLocationString_strategies olcW gFail "52.5, 13.4" 0 0 (by decide)

/-- A geocoder oracle that would succeed on any query, in particular the
blank one. -/
def gBlank : Geocoder := fun _ => .ok ⟨1, 2⟩

/-- C2, the claim as frozen: on the blank input the resolver raises
`"Empty location query"` instead of applying strategy (3), full-text
geocoding of the whole input, which here would succeed. -/
theorem resolveLocationString_blank_input :
    resolveLocationString olcW gBlank "" 0 0 = .error "Empty location query" ∧
    gBlank "" = .ok ⟨1, 2⟩ := ⟨rfl, rfl⟩

/-- C10: footprint objects are changed only by allocation during
preparation: after `prepareFootprintsAlloc` every input object keeps its
original `pts`, `height` and `tags` (its store cell is untouched), the
prepared footprints are fresh objects whose values are exactly
`prepareFootprints` of the input values, and the render pass reads the
prepared footprints without changing the store. -/
theorem prepareFootprints_alloc_frame (st : FootprintStore) (ids : List Nat)
    (platformSize : ℝ) (controls : BuildingControlState) :
    (∀ a, a < st.cells.length →
      (prepareFootprintsAlloc st ids platformSize).1.cells.get? a =
        st.cells.get? a) ∧
    (∀ b, b ∈ (prepareFootprintsAlloc st ids platformSize).2 →
      st.cells.length ≤ b) ∧
    storeValues (prepareFootprintsAlloc st ids platformSize).1
        (prepareFootprintsAlloc st ids platformSize).2 =
      prepareFootprints (storeValues st ids) platformSize ∧
    (buildingsRenderRead st ids controls).1 = st := by
  refine ⟨?_, ?_, ?_, rfl⟩
  · intro a ha
    show (st.cells ++ prepareFootprints (storeValues st ids)
      platformSize).get? a = st.cells.get? a
    exact List.get?_append ha
  · intro b hb
    simp only [prepareFootprintsAlloc, List.mem_map, List.mem_range] at hb
    obtain ⟨i, _, rfl⟩ := hb
    omega
  · have h1 : storeValues (prepareFootprintsAlloc st ids platformSize).1
        (prepareFootprintsAlloc st ids platformSize).2 =
        (List.range (prepareFootprints (storeValues st ids)
          platformSize).length).map (fun i =>
          (((st.cells ++ prepareFootprints (storeValues st ids)
            platformSize).get? (st.cells.length + i)).getD
              defaultFootprint)) := by
      show ((List.range (prepareFootprints (storeValues st ids)
        platformSize).length).map (fun i => st.cells.length + i)).map
          (fun a => (((st.cells ++ prepareFootprints (storeValues st ids)
            platformSize).get? a).getD defaultFootprint)) = _
      rw [List.map_map]
      rfl
    rw [h1]
    apply List.ext_get
    · simp
    · intro i h1 h2
      rw [List.get_map, List.get_range]
      have hi : i < (prepareFootprints (storeValues st ids)
          platformSize).length := by
        simpa using h1
      have happ : (st.cells ++ prepareFootprints (storeValues st ids)
          platformSize).get? (st.cells.length + i) =
          (prepareFootprints (storeValues st ids) platformSize).get? i := by
        rw [List.get?_append_right (by omega)]
        congr 1
        omega
      rw [happ, List.get?_eq_get hi]
      rfl

end CityBlocks
